import Mathlib

/-!
Verification of the gemini_flight_optimizer combinatorial planning pipeline.

Shallow embedding conventions:
* Python `datetime.date` is a day number (`ℤ`); `datetime.time` is a record of
  hour/minute/second/microsecond; `datetime.datetime` is an integer number of
  microseconds since an epoch (`date * 86400000000 + time-in-microseconds`).
  Durations and stay-hour bounds are likewise integer microseconds: the
  source computes stays in hours (`total_seconds() / 3600`) and compares them
  with hour-valued bounds, and scaling both sides by the positive constant
  3.6e9 preserves every comparison exactly, so the embedding works in the
  microsecond scale throughout.
* Python `None`-able values are `Option`; Python truthiness of numbers/lists is
  modelled explicitly (`0` and `[]` are falsy).
* Python `assert`/`KeyError`/`IndexError` aborts are modelled with
  `Except String` (or `Option`) results.
* Python `hash(...)` calls are modelled by the canonical key tuple that the
  source passes to `hash`: two hashes are equal exactly when their key tuples
  are equal (Python's `hash` is deterministic on the key; collisions between
  distinct keys are out of scope).
* Python `id = str(self)` (`FlightInfo.id`) is modelled by the record of the
  fields rendered by `__str__` (everything except `parent_ids`), an injective
  stand-in for the string rendering.
-/

/-! ## datetime_range.py -/

/-- A Python `datetime.time`: hour/minute/second/microsecond. -/
structure Time where
  hour : ℕ
  minute : ℕ
  second : ℕ
  microsecond : ℕ
deriving DecidableEq, Repr

/-- Total microseconds since midnight; Python compares `time` values by this. -/
def Time.micro (t : Time) : ℕ :=
  ((t.hour * 60 + t.minute) * 60 + t.second) * 1000000 + t.microsecond

/-- Python `time` ordering (`t1 <= t2`). -/
def Time.le (t1 t2 : Time) : Prop := t1.micro ≤ t2.micro

instance : DecidablePred fun p : Time × Time => p.1.le p.2 := by
  intro p; unfold Time.le; infer_instance

instance (t1 t2 : Time) : Decidable (t1.le t2) := by
  unfold Time.le; infer_instance

/-- Field ranges enforced by the Python `datetime.time` constructor. -/
def Time.Valid (t : Time) : Prop :=
  t.hour < 24 ∧ t.minute < 60 ∧ t.second < 60 ∧ t.microsecond < 1000000

instance (t : Time) : Decidable t.Valid := by
  unfold Time.Valid; infer_instance

/-- `hour_floor` from datetime_range.py. -/
def hour_floor (dt_time : Time) : ℕ := dt_time.hour

/-- `increment_hour` from datetime_range.py. -/
def increment_hour (hour : ℕ) : ℕ := (hour + 1) % 24

/-- `hour_ceil` from datetime_range.py. -/
def hour_ceil (dt_time : Time) : ℕ :=
  if dt_time.minute = 0 ∧ dt_time.second = 0 ∧ dt_time.microsecond = 0 then
    dt_time.hour
  else
    increment_hour dt_time.hour

/-- `TimeRange` from datetime_range.py (both bounds optional). -/
structure TimeRange where
  earliest : Option Time := none
  latest : Option Time := none
deriving DecidableEq, Repr

/-- The `Range.__post_init__` invariant: when both bounds are present,
`earliest <= latest`. -/
def TimeRange.Wf (tr : TimeRange) : Prop :=
  ∀ e l, tr.earliest = some e → tr.latest = some l → e.le l

/-- `TimeRange.convert_time_range_to_hour_range` from datetime_range.py. -/
def TimeRange.convert_time_range_to_hour_range (tr : TimeRange) :
    Option ℕ × Option ℕ :=
  let earliest_hour : Option ℕ :=
    match tr.earliest with
    | none => none
    | some t => some (hour_floor t)
  let latest_hour : Option ℕ :=
    match tr.latest with
    | none => none
    | some t =>
      let lh := hour_ceil t
      match earliest_hour with
      | some eh => if lh ≤ eh then some (increment_hour lh) else some lh
      | none => some lh
  (earliest_hour, latest_hour)

/-- `DateRange` from datetime_range.py; dates are day numbers. -/
structure DateRange where
  earliest : Option ℤ := none
  latest : Option ℤ := none
deriving DecidableEq, Repr

/-- `DateRange.__iter__`: the days from `earliest` to `latest` inclusive
(empty when `earliest > latest`). -/
def dateRangeDays (e l : ℤ) : List ℤ :=
  (List.range (l + 1 - e).toNat).map (fun i => e + (i : ℤ))

/-! ## fli.models data model (the provider query/offer types used by the core) -/

/-- `fli.models.TripType`. -/
inductive TripType where
  | ONE_WAY
  | ROUND_TRIP
deriving DecidableEq, Repr

/-- `fli.models.SeatType` (cabin class). -/
inductive SeatType where
  | ECONOMY
  | PREMIUM_ECONOMY
  | BUSINESS
  | FIRST
deriving DecidableEq, Repr

/-- `fli.models.SortBy` (sort mode). -/
inductive SortBy where
  | NONE
  | CHEAPEST
  | DURATION
deriving DecidableEq, Repr

/-- `fli.models.PassengerInfo`. -/
structure PassengerInfo where
  adults : ℕ := 1
  children : ℕ := 0
  infants_in_seat : ℕ := 0
  infants_on_lap : ℕ := 0
deriving DecidableEq, Repr

/-- `fli.models.PriceLimit`: a price ceiling with an optional currency. -/
structure PriceLimit where
  max_price : ℚ
  currency : Option String := none
deriving DecidableEq, Repr

/-- `fli.models.LayoverRestrictions`; airports are identified by their
enum name (IATA code). -/
structure LayoverRestrictions where
  airports : Option (List String) := none
  max_duration : Option ℕ := none
deriving DecidableEq, Repr

/-- `fli.models.TimeRestrictions` (hour-granularity bounds). -/
structure TimeRestrictions where
  earliest_departure : Option ℕ := none
  latest_departure : Option ℕ := none
  earliest_arrival : Option ℕ := none
  latest_arrival : Option ℕ := none
deriving DecidableEq, Repr

/-- `fli.models.FlightLeg`; airlines and airports by enum name, date-times
as integer microseconds since the epoch. -/
structure FlightLeg where
  airline : String
  flight_number : String
  departure_airport : String
  arrival_airport : String
  departure_datetime : ℤ
  arrival_datetime : ℤ
  duration : ℤ
deriving DecidableEq, Repr

/-- `fli.models.FlightResult` (a provider offer). -/
structure FlightResult where
  legs : List FlightLeg
  price : ℚ
  duration : ℤ
  stops : ℤ
deriving DecidableEq, Repr

/-- `fli.models.FlightSegment`: airport entries are the `[airport, 0]`
pairs the source builds, travel date is a day number. -/
structure FlightSegment where
  departure_airport : List (String × ℤ)
  arrival_airport : List (String × ℤ)
  travel_date : ℤ
  time_restrictions : Option TimeRestrictions := none
  selected_flight : Option FlightResult := none
deriving DecidableEq, Repr

/-- `fli.models.FlightSearchFilters`; `stops` is the `MaxStops` enum value. -/
structure FlightSearchFilters where
  trip_type : TripType
  passenger_info : PassengerInfo
  flight_segments : List FlightSegment
  stops : ℕ
  seat_type : SeatType
  price_limit : Option PriceLimit := none
  airlines : Option (List String) := none
  max_duration : Option ℕ := none
  layover_restrictions : Option LayoverRestrictions := none
  sort_by : SortBy
deriving DecidableEq, Repr

/-! ## flight_hash.py

Python's `hash(tup)` is deterministic in the tuple, so each hash function is
modelled by the canonical key tuple the source builds and passes to `hash`:
two objects get the same Python hash exactly when their key tuples coincide
(hash collisions between distinct tuples are out of scope). `sorted(...)` on
strings and on `(name, int)` pairs is insertion sort under the
lexicographic order. -/

/-- A string as its list of code points; Python compares strings by this. -/
def strKey (s : String) : List ℕ := s.data.map (fun c => c.toNat)

/-- Python string order (lexicographic on code points). -/
def strLe (a b : String) : Prop := strKey a ≤ strKey b

instance : DecidableRel strLe := by
  intro a b; unfold strLe; infer_instance

/-- Python `sorted` on a list of strings. -/
def sortStrings (l : List String) : List String :=
  List.insertionSort strLe l

/-- Lexicographic order on `(name, int)` airport entries, as Python compares
the tuples built in `hash_flight_segment`. -/
def pairLe (a b : String × ℤ) : Prop :=
  strKey a.1 < strKey b.1 ∨ (a.1 = b.1 ∧ a.2 ≤ b.2)

instance : DecidableRel pairLe := by
  intro a b; unfold pairLe; infer_instance

/-- Python `sorted` on a list of `(name, int)` pairs. -/
def sortPairs (l : List (String × ℤ)) : List (String × ℤ) :=
  List.insertionSort pairLe l

/-- The tuple `hash_flight_leg` (flight_hash.py) passes to `hash`. -/
structure LegHashKey where
  airline : String
  flight_number : String
  departure_airport : String
  arrival_airport : String
  departure_datetime : ℤ
  arrival_datetime : ℤ
  duration : ℤ
deriving DecidableEq, Repr

/-- `hash_flight_leg` from flight_hash.py. -/
def hash_flight_leg (flight_leg : FlightLeg) : LegHashKey :=
  ⟨flight_leg.airline, flight_leg.flight_number, flight_leg.departure_airport,
   flight_leg.arrival_airport, flight_leg.departure_datetime,
   flight_leg.arrival_datetime, flight_leg.duration⟩

/-- The tuple `hash_flight_result` (flight_hash.py) passes to `hash`. -/
structure ResultHashKey where
  legs : List LegHashKey
  price : ℚ
  duration : ℤ
  stops : ℤ
deriving DecidableEq, Repr

/-- `hash_flight_result` from flight_hash.py. -/
def hash_flight_result (flight_result : FlightResult) : ResultHashKey :=
  ⟨flight_result.legs.map hash_flight_leg, flight_result.price,
   flight_result.duration, flight_result.stops⟩

/-- The tuple `hash_flight_segment` (flight_hash.py) passes to `hash`. -/
structure SegmentHashKey where
  departure_airport : List (String × ℤ)
  arrival_airport : List (String × ℤ)
  travel_date : ℤ
  time_restrictions : Option (Option ℕ × Option ℕ × Option ℕ × Option ℕ)
  selected_flight : Option ResultHashKey
deriving DecidableEq, Repr

/-- `hash_flight_segment` from flight_hash.py: airport pair lists are
sorted before hashing. -/
def hash_flight_segment (flight_segment : FlightSegment) : SegmentHashKey :=
  ⟨sortPairs flight_segment.departure_airport,
   sortPairs flight_segment.arrival_airport,
   flight_segment.travel_date,
   flight_segment.time_restrictions.map (fun t =>
     (t.earliest_departure, t.latest_departure, t.earliest_arrival,
      t.latest_arrival)),
   flight_segment.selected_flight.map hash_flight_result⟩

/-- `hash_layover_restrictions` from flight_hash.py: airport names are
sorted; an empty airport list is falsy in Python and hashes like `None`. -/
def hash_layover_restrictions (layover_restrictions : LayoverRestrictions) :
    Option (List String) × Option ℕ :=
  ((match layover_restrictions.airports with
    | some l => if l = [] then none else some (sortStrings l)
    | none => none),
   layover_restrictions.max_duration)

/-- The tuple `hash_flight_query` (flight_hash.py) passes to `hash`. -/
structure QueryHashKey where
  trip_type : TripType
  passenger_info : ℕ × ℕ × ℕ × ℕ
  flight_segments : List SegmentHashKey
  stops : ℕ
  seat_type : SeatType
  price_limit : Option (ℚ × Option String)
  airlines : Option (List String)
  max_duration : Option ℕ
  layover_restrictions : Option (Option (List String) × Option ℕ)
  sort_by : SortBy
deriving DecidableEq, Repr

/-- `hash_flight_query` from flight_hash.py: airline names are sorted
before hashing (an empty airline list is falsy and hashes like `None`). -/
def hash_flight_query (query : FlightSearchFilters) : QueryHashKey :=
  ⟨query.trip_type,
   (query.passenger_info.adults, query.passenger_info.children,
    query.passenger_info.infants_in_seat, query.passenger_info.infants_on_lap),
   query.flight_segments.map hash_flight_segment,
   query.stops,
   query.seat_type,
   query.price_limit.map (fun p => (p.max_price, p.currency)),
   (match query.airlines with
    | some l => if l = [] then none else some (sortStrings l)
    | none => none),
   query.max_duration,
   query.layover_restrictions.map hash_layover_restrictions,
   query.sort_by⟩

/-! ## city.py: DepartureFlightFilter and City -/

/-- `DepartureFlightFilter` from city.py. -/
structure DepartureFlightFilter where
  stops : ℕ := 0
  seat_type : SeatType := SeatType.ECONOMY
  price_limit : Option PriceLimit := none
  airlines : Option (List String) := none
  max_duration : Option ℕ := none
  layover_restrictions : Option LayoverRestrictions := none
deriving DecidableEq, Repr

/-- The tuple `DepartureFlightFilter.hash` (city.py) passes to `hash`. -/
structure FilterHashKey where
  stops : ℕ
  seat_type : SeatType
  price_limit : Option (ℚ × Option String)
  airlines : Option (List String)
  max_duration : Option ℕ
  layover_restrictions : Option (Option (List String) × Option ℕ)
deriving DecidableEq, Repr

/-- `DepartureFlightFilter.hash` from city.py (lines 47-58). Note that the
airline list is hashed in the caller's order:
`tuple(airline for airline in self.airlines)` does not sort. -/
def DepartureFlightFilter.hash (f : DepartureFlightFilter) : FilterHashKey :=
  ⟨f.stops, f.seat_type,
   f.price_limit.map (fun p => (p.max_price, p.currency)),
   (match f.airlines with
    | some l => if l = [] then none else some l
    | none => none),
   f.max_duration,
   f.layover_restrictions.map hash_layover_restrictions⟩

/-- `City` from city.py: a resolved trip node. -/
structure City where
  airports : List String
  arrival_date : Option ℤ := none
  arrival_time_range : Option TimeRange := none
  departure_date : Option ℤ := none
  departure_time_range : Option TimeRange := none
  departure_flight_filter : DepartureFlightFilter := {}
deriving DecidableEq, Repr

/-- `City.id` from city.py: the sorted tuple of airport names. -/
def City.id (c : City) : List String :=
  sortStrings c.airports

/-- The tuple `City.hash` (city.py) passes to `hash`. -/
structure CityHashKey where
  airports : List String
  arrival_date : Option ℤ
  arrival_time_range : Option TimeRange
  departure_date : Option ℤ
  departure_time_range : Option TimeRange
  departure_flight_filter : FilterHashKey
deriving DecidableEq, Repr

/-- `City.hash` from city.py (lines 99-110): sorted airport names, both
date/time windows (a `Range` hashes as its `(earliest, latest)` pair, here
represented by the `TimeRange` value itself), and the filter hash. -/
def City.hash (c : City) : CityHashKey :=
  ⟨sortStrings c.airports, c.arrival_date, c.arrival_time_range,
   c.departure_date, c.departure_time_range, c.departure_flight_filter.hash⟩

/-- Python `datetime.combine(date, time)`, as microseconds since epoch. -/
def datetimeCombine (d : ℤ) (t : Time) : ℤ := d * 86400000000 + (t.micro : ℤ)

/-- `City.arrival_datetime_range` from city.py (lines 112-119): `None`
unless the arrival date and both arrival time bounds are present. -/
def City.arrival_datetime_range (c : City) : Option (ℤ × ℤ) :=
  match c.arrival_date, c.arrival_time_range with
  | some d, some tr =>
    match tr.earliest, tr.latest with
    | some e, some l => some (datetimeCombine d e, datetimeCombine d l)
    | _, _ => none
  | _, _ => none

/-- `City.departure_datetime_range` from city.py (lines 121-128). -/
def City.departure_datetime_range (c : City) : Option (ℤ × ℤ) :=
  match c.departure_date, c.departure_time_range with
  | some d, some tr =>
    match tr.earliest, tr.latest with
    | some e, some l => some (datetimeCombine d e, datetimeCombine d l)
    | _, _ => none
  | _, _ => none

/-- `CityRange` from city.py: an unresolved trip node. The stay bounds
`min_stay_hours`/`max_stay_hours` are represented in integer microseconds
(the source's hour value scaled by 3.6e9, an exact order-preserving
rescaling). -/
structure CityRange where
  airports : List String
  min_stay_hours : Option ℤ := none
  max_stay_hours : Option ℤ := none
  arrival_date_range : Option DateRange := none
  arrival_time_range : Option TimeRange := none
  departure_date_range : Option DateRange := none
  departure_time_range : Option TimeRange := none
  departure_flight_filter : DepartureFlightFilter := {}
deriving DecidableEq, Repr

/-- The date candidates used by `get_all_possible_city_configurations`:
the iterated date range when present with both bounds, else the single
placeholder `[None]` (city.py lines 244-251). -/
def optionDates (r : Option DateRange) : List (Option ℤ) :=
  match r with
  | some dr =>
    match dr.earliest, dr.latest with
    | some e, some l => (dateRangeDays e l).map some
    | _, _ => [none]
  | none => [none]

/-- One stay-bound rejection test of city.py lines 275-278, with Python
truthiness made explicit: a bound of `None` or `0`, or a derived stay of
`None` or `0`, never rejects. `cmp` is `<` for the min-stay check and `>`
for the max-stay check. -/
def stayBoundRejects (bound stay : Option ℤ) (cmp : ℤ → ℤ → Prop)
    [DecidableRel cmp] : Bool :=
  match bound, stay with
  | some b, some s => decide (b ≠ 0) && decide (s ≠ 0) && decide (cmp s b)
  | _, _ => false

/-- The derived worst-case `(max_stay_hours, min_stay_hours)` of city.py
lines 258-273 for a concrete `(arrival_date, departure_date)` pair: the
date-time differences when both time ranges are present (each side `None`
when its bound is missing), and the whole-day difference as soon as at
least one of the two time ranges is absent. -/
def CityRange.derivedStays (cr : CityRange) (ad dd : ℤ) :
    Option ℤ × Option ℤ :=
  match cr.arrival_time_range, cr.departure_time_range with
  | some atr, some dtr =>
    ((match atr.earliest, dtr.latest with
      | some ae, some dl =>
        some (datetimeCombine dd dl - datetimeCombine ad ae)
      | _, _ => none),
     (match atr.latest, dtr.earliest with
      | some al, some de =>
        some (datetimeCombine dd de - datetimeCombine ad al)
      | _, _ => none))
  | _, _ => (some ((dd - ad) * 86400000000), some ((dd - ad) * 86400000000))

/-- The `continue` filter of city.py lines 256-278 for a pair with both
dates present. -/
def CityRange.stayReject (cr : CityRange) (ad dd : ℤ) : Bool :=
  let stays := cr.derivedStays ad dd
  stayBoundRejects cr.min_stay_hours stays.1 (· < ·) ||
    stayBoundRejects cr.max_stay_hours stays.2 (· > ·)

/-- The `City` appended for a surviving date pair (city.py lines 281-290):
it carries the original time windows and filter unchanged. -/
def CityRange.mkCityConfig (cr : CityRange) (a d : Option ℤ) : City :=
  ⟨cr.airports, a, cr.arrival_time_range, d, cr.departure_time_range,
   cr.departure_flight_filter⟩

/-- `CityRange.get_all_possible_city_configurations` from city.py
(lines 242-291). -/
def CityRange.get_all_possible_city_configurations (cr : CityRange) :
    List City :=
  (optionDates cr.arrival_date_range).flatMap (fun a =>
    (optionDates cr.departure_date_range).filterMap (fun d =>
      let rejected : Bool :=
        match a, d with
        | some ad, some dd => cr.stayReject ad dd
        | _, _ => false
      if rejected then none
      else
        let dateOk : Bool :=
          match a, d with
          | some ad, some dd => decide (ad ≤ dd)
          | _, _ => true
        if dateOk then some (cr.mkCityConfig a d) else none))

/-- `itertools.product` over a list of lists (leftmost factor outermost). -/
def productList : List (List α) → List (List α)
  | [] => [[]]
  | l :: ls => l.flatMap (fun x => (productList ls).map (x :: ·))

/-- The date check of city.py lines 306-310 for one adjacent pair. -/
def dateCheckOk (c1 c2 : City) : Bool :=
  match c1.departure_date, c2.arrival_date with
  | some dd, some ad => !(decide (dd > ad))
  | _, _ => true

/-- The date-time check of city.py lines 312-316. Note both ranges are
taken from `city_itinerary[i]`: the predecessor's departure window is
compared against the predecessor's own arrival window (both bounds of a
present range are always set by construction). -/
def dtCheckOk (c1 : City) : Bool :=
  match c1.departure_datetime_range, c1.arrival_datetime_range with
  | some d, some a => !(decide (d.1 > a.2))
  | _, _ => true

/-- The `valid_itinerary` loop of city.py lines 303-316. -/
def itineraryValid : List City → Bool
  | c1 :: c2 :: rest => dateCheckOk c1 c2 && dtCheckOk c1 &&
      itineraryValid (c2 :: rest)
  | _ => true

/-- `CityRange.get_city_itineraries` from city.py (lines 293-320); the
generator is modelled as the list it yields. -/
def CityRange.get_city_itineraries (city_ranges : List CityRange) :
    List (List City) :=
  (productList
    (city_ranges.map CityRange.get_all_possible_city_configurations)).filter
    itineraryValid

/-! ## flight_info.py: merge_flight_queries -/

/-- Python `set(tuple(a) for a in x) == set(tuple(a) for a in y)` on the
airport entry lists compared in `merge_flight_queries`. -/
def eqAsSets (a b : List (String × ℤ)) : Bool :=
  a.all (fun x => decide (x ∈ b)) && b.all (fun x => decide (x ∈ a))

/-- `merge_flight_queries` from flight_info.py (lines 130-210). Each
`assert` is an `Except.error`; Python `list(set(x + y))` (an unordered
union) is represented by the canonical `(x ++ y).dedup`, and the merged
`PriceLimit` is built with the default currency, as the source's
`PriceLimit(max_price=...)` call does. -/
def merge_flight_queries (departing_query returning_query :
    FlightSearchFilters) : Except String FlightSearchFilters :=
  if ¬(departing_query.trip_type = TripType.ONE_WAY ∧
       returning_query.trip_type = TripType.ONE_WAY) then
    .error "trip types must both be one way"
  else if departing_query.passenger_info ≠ returning_query.passenger_info then
    .error "passenger infos must match"
  else if departing_query.seat_type ≠ returning_query.seat_type then
    .error "seat types must match"
  else if departing_query.sort_by ≠ returning_query.sort_by then
    .error "sort orders must match"
  else
    match departing_query.flight_segments, returning_query.flight_segments with
    | [s1], [s2] =>
      if ¬(eqAsSets s1.departure_airport s2.arrival_airport) then
        .error "flight 1 departure must mirror flight 2 arrival"
      else if ¬(eqAsSets s1.arrival_airport s2.departure_airport) then
        .error "flight 1 arrival must mirror flight 2 departure"
      else
        .ok { trip_type := TripType.ROUND_TRIP,
              passenger_info := departing_query.passenger_info,
              flight_segments := [s1, s2],
              stops := max departing_query.stops returning_query.stops,
              seat_type := departing_query.seat_type,
              price_limit :=
                match departing_query.price_limit,
                    returning_query.price_limit with
                | some p1, some p2 => some ⟨p1.max_price + p2.max_price, none⟩
                | _, _ => none,
              airlines :=
                match departing_query.airlines, returning_query.airlines with
                | some a1, some a2 => some ((a1 ++ a2).dedup)
                | _, _ => none,
              max_duration :=
                match departing_query.max_duration,
                    returning_query.max_duration with
                | some d1, some d2 => some (max d1 d2)
                | _, _ => none,
              layover_restrictions :=
                match departing_query.layover_restrictions,
                    returning_query.layover_restrictions with
                | some l1, some l2 =>
                  some ⟨(match l1.airports, l2.airports with
                         | some x, some y => some ((x ++ y).dedup)
                         | _, _ => none),
                        (match l1.max_duration, l2.max_duration with
                         | some x, some y => some (max x y)
                         | _, _ => none)⟩
                | _, _ => none,
              sort_by := departing_query.sort_by }
    | _, _ => .error "each query must have exactly one flight segment"

/-! ## flight_info.py: FlightInfo and search-result processing

`FlightInfo.id` is `str(self)` in the source; `__str__` renders price,
duration, stops, flight type and the legs (and values derived from them),
and never `parent_ids`, so the id is modelled as the record of exactly
those fields. `FlightInfo` subclasses the provider's pydantic
`FlightResult`, so the dataclass-style `__post_init__` hook is inert:
`search_flights` really does build `ROUND_TRIP_RETURNING` flights with an
empty `parent_ids` and appends parents after insertion. -/

/-- `FlightType` from flight_info.py. -/
inductive FlightType where
  | ONE_WAY
  | ROUND_TRIP_DEPARTING
  | ROUND_TRIP_RETURNING
deriving DecidableEq, Repr

/-- The content of `FlightInfo.id` (`str(self)`): every field except
`parent_ids`. -/
structure FlightId where
  legs : List FlightLeg
  price : ℚ
  duration : ℤ
  stops : ℤ
  flight_type : FlightType
deriving DecidableEq, Repr

/-- `FlightInfo` from flight_info.py: a provider offer annotated with a
role and, for returning flights, the ids of departing flights it can pair
with. -/
structure FlightInfo where
  legs : List FlightLeg
  price : ℚ
  duration : ℤ
  stops : ℤ
  flight_type : FlightType
  parent_ids : List FlightId := []
deriving DecidableEq, Repr

/-- `FlightInfo.id` from flight_info.py (lines 49-52). -/
def FlightInfo.id (f : FlightInfo) : FlightId :=
  ⟨f.legs, f.price, f.duration, f.stops, f.flight_type⟩

/-- `FlightInfo.from_flight_result` from flight_info.py. -/
def FlightInfo.from_flight_result (flight_result : FlightResult)
    (flight_type : FlightType) (parent_ids : List FlightId) : FlightInfo :=
  ⟨flight_result.legs, flight_result.price, flight_result.duration,
   flight_result.stops, flight_type, parent_ids⟩

/-- The departing `FlightInfo` a round-trip pair produces in
`search_flights` (lines 229-240), after price normalization: the price is
zeroed. -/
def departingOfPair (a b : FlightResult) : FlightInfo :=
  { legs := a.legs, price := 0, duration := a.duration, stops := a.stops,
    flight_type := FlightType.ROUND_TRIP_DEPARTING, parent_ids := [] }

/-- The returning `FlightInfo` a round-trip pair produces in
`search_flights` (lines 233-239), after price normalization: the price
absorbs `max(departing price, returning price)` of the original pair. -/
def returningOfPair (a b : FlightResult) : FlightInfo :=
  { legs := b.legs, price := max a.price b.price, duration := b.duration,
    stops := b.stops, flight_type := FlightType.ROUND_TRIP_RETURNING,
    parent_ids := [] }

/-- `if flight.id not in dict: dict[flight.id] = flight` over an
insertion-ordered map represented as a list. -/
def insertIfAbsent (l : List FlightInfo) (f : FlightInfo) : List FlightInfo :=
  if l.any (fun g => decide (g.id = f.id)) then l else l ++ [f]

/-- `returning_flights[id].parent_ids.append(parent)` (line 246). -/
def appendParent (l : List FlightInfo) (k p : FlightId) : List FlightInfo :=
  l.map (fun g =>
    if g.id = k then { g with parent_ids := g.parent_ids ++ [p] } else g)

/-- One iteration of the result loop of `search_flights`
(flight_info.py lines 225-254); the state is the pair of
insertion-ordered `departing_flights`/`returning_flights` maps. -/
def processFlightResult (state : List FlightInfo × List FlightInfo)
    (flight_result : FlightResult ⊕ FlightResult × FlightResult) :
    List FlightInfo × List FlightInfo :=
  match flight_result with
  | .inl fr =>
    (insertIfAbsent state.1
      (FlightInfo.from_flight_result fr FlightType.ONE_WAY []), state.2)
  | .inr (a, b) =>
    let departing_flight := departingOfPair a b
    let returning_flight := returningOfPair a b
    let deps := insertIfAbsent state.1 departing_flight
    let rets := insertIfAbsent state.2 returning_flight
    (deps, appendParent rets returning_flight.id departing_flight.id)

/-- The result-processing part of `search_flights` (flight_info.py
lines 213-256): the provider call itself is the external collaborator, so
its outcome (`None` or a list of offers / offer pairs) is the input. -/
def search_flights_process
    (flight_results :
      Option (List (FlightResult ⊕ FlightResult × FlightResult))) :
    List FlightInfo × List FlightInfo :=
  match flight_results with
  | none => ([], [])
  | some results => results.foldl processFlightResult ([], [])

/-! ## flight_itinerary.py: FlightItinerary and generate_flight_itineraries -/

/-- `flight_info.legs[0].departure_datetime` (0 for empty legs, which the
provider never produces; the source would raise `IndexError`). -/
def FlightInfo.firstDeparture (f : FlightInfo) : ℤ :=
  (f.legs.head?.map FlightLeg.departure_datetime).getD 0

/-- `flight_info.legs[-1].arrival_datetime`. -/
def FlightInfo.lastArrival (f : FlightInfo) : ℤ :=
  (f.legs.getLast?.map FlightLeg.arrival_datetime).getD 0

/-- `FlightItinerary.flight_group_ids` (flight_itinerary.py lines 88-106):
walk the flights keeping an id-to-group-id mapping; a returning flight
must carry exactly one parent id (line 98 `assert`) that is already in the
mapping (otherwise a `KeyError`), both modelled as `none`. -/
def computeGroupIds (mapping : List (FlightId × ℕ)) (group_id : ℕ) :
    List FlightInfo → Option (List ℕ)
  | [] => some []
  | f :: rest =>
    if f.flight_type = FlightType.ROUND_TRIP_RETURNING then
      match f.parent_ids with
      | [p] =>
        match mapping.lookup p with
        | some g => (computeGroupIds mapping group_id rest).map (g :: ·)
        | none => none
      | _ => none
    else
      (computeGroupIds
        (if f.flight_type = FlightType.ROUND_TRIP_DEPARTING then
          (f.id, group_id) :: mapping
         else mapping)
        (group_id + 1) rest).map (group_id :: ·)

/-- `FlightItinerary` from flight_itinerary.py. -/
structure FlightItinerary where
  flight_infos : List FlightInfo
deriving DecidableEq, Repr

/-- `FlightItinerary.__post_init__` (lines 54-62) as a fallible
constructor: the flight list must be nonempty, and the `flight_group_ids`
computation (forced by the length assert on line 56) must succeed, which
also subsumes the line-62 assert that every returning flight has exactly
one parent id. -/
def mkFlightItinerary (flight_infos : List FlightInfo) :
    Except String FlightItinerary :=
  if flight_infos.isEmpty then
    .error "assert len(self.flight_infos) > 0"
  else
    match computeGroupIds [] 1 flight_infos with
    | some _ => .ok ⟨flight_infos⟩
    | none => .error "invalid round-trip parent linkage"

/-- A `for` loop that constructs one value per element and aborts on the
first exception. -/
def collectExcept (f : α → Except ε β) : List α → Except ε (List β)
  | [] => .ok []
  | a :: t =>
    match f a with
    | .error e => .error e
    | .ok b =>
      match collectExcept f t with
      | .error e => .error e
      | .ok bs => .ok (b :: bs)

/-- The city-stay check of `_recurse` (flight_itinerary.py lines 414-422):
the stay (here in microseconds; the source divides by 3600 seconds, an
order-preserving rescaling) must be positive and within the optional
bounds. -/
def stayOk (stay : ℤ) (minB maxB : Option ℤ) : Bool :=
  (match minB with
   | none => true
   | some m => decide (stay ≥ m)) &&
  (match maxB with
   | none => true
   | some M => decide (stay ≤ M)) &&
  decide (stay > 0)

/-- The candidate loop of `_recurse` (flight_itinerary.py lines 390-437),
structurally recursive over the candidate list; `recurseNext` is the
recursive call into the next leg. For each candidate: resolve round-trip
parent linkage (a candidate with parent ids must be a returning flight —
the line-396 `assert` — and is skipped unless one of its parents is open;
the first match in parent-id order wins, fixing `parent_ids` to it and
closing that id in this branch's copy of the open set), check the stay
bounds (an out-of-range bound index is the source's `IndexError`), then
either finish (last leg, rejecting when open round trips remain) or
recurse into the next leg; every completion is prefixed with the previous
flight. `idx == len(ls) - 1` is rendered as `len(ls) <= idx + 1`,
equivalent for every reachable `idx < len(ls)`. -/
def recurseCandidates (ls : List (List FlightInfo))
    (mins maxs : List (Option ℤ)) (prev : FlightInfo)
    (open_ids : List FlightId) (idx : ℕ)
    (recurseNext : FlightInfo → List FlightId →
      Except String (List (List FlightInfo))) :
    List FlightInfo → Except String (List (List FlightInfo))
  | [] => .ok []
  | next :: rest =>
    let matched : Except String (Option (FlightInfo × List FlightId)) :=
      if next.parent_ids = [] then
        .ok (some (next, open_ids))
      else if next.flight_type ≠ FlightType.ROUND_TRIP_RETURNING then
        .error "assert flight_type == ROUND_TRIP_RETURNING"
      else
        match next.parent_ids.find? (fun p => decide (p ∈ open_ids)) with
        | some p =>
          .ok (some ({ next with parent_ids := [p] }, open_ids.erase p))
        | none => .ok none
    let step : Except String (List (List FlightInfo)) :=
      match matched with
      | .error e => .error e
      | .ok none => .ok []
      | .ok (some (next', child_open)) =>
        match mins[idx]?, maxs[idx]? with
        | some minB, some maxB =>
          if stayOk (next'.firstDeparture - prev.lastArrival) minB maxB then
            if ls.length ≤ idx + 1 then
              if child_open.isEmpty then .ok [[prev, next']] else .ok []
            else
              match recurseNext next' child_open with
              | .error e => .error e
              | .ok children => .ok (children.map (prev :: ·))
          else .ok []
        | _, _ => .error "IndexError: stay bound index out of range"
    match step with
    | .error e => .error e
    | .ok contribution =>
      match recurseCandidates ls mins maxs prev open_ids idx recurseNext
          rest with
      | .error e => .error e
      | .ok others => .ok (contribution ++ others)

/-- `_recurse` from `generate_flight_itineraries` (flight_itinerary.py
lines 371-437): if the previous flight is a round-trip departing flight
its id joins the open set, then every candidate of leg `idx` is tried.
`fuel` only bounds the recursion depth so the definition is structural;
the caller passes `ls.length`, which exceeds the maximal depth
(`idx` runs to `ls.length - 1`), so the fuel branch is unreachable. -/
def recurseFlights (fuel : ℕ) (ls : List (List FlightInfo))
    (mins maxs : List (Option ℤ)) (prev : FlightInfo)
    (open_ids : List FlightId) (idx : ℕ) :
    Except String (List (List FlightInfo)) :=
  match fuel with
  | 0 => .error "recursion fuel exhausted (unreachable from the top call)"
  | fuel' + 1 =>
    let open_ids' :=
      if prev.flight_type = FlightType.ROUND_TRIP_DEPARTING then
        open_ids.insert prev.id
      else open_ids
    recurseCandidates ls mins maxs prev open_ids' idx
      (fun next' child_open =>
        recurseFlights fuel' ls mins maxs next' child_open (idx + 1))
      (ls.getD idx [])

/-- `generate_flight_itineraries` from flight_itinerary.py
(lines 348-450). With one leg-candidate list the source constructs
`FlightItinerary(flight_infos=fis)` for each element `fis` of the OUTER
list (line 368), i.e. one itinerary holding the whole candidate list;
otherwise the backtracking search runs from every starting candidate and
every completion becomes one `FlightItinerary`. Exceptions from the
recursion and from itinerary construction both abort the call; this
embedding surfaces recursion errors first, which only affects which
message an aborting call reports, never the success value. -/
def generate_flight_itineraries (list_flight_infos : List (List FlightInfo))
    (min_stay_hours max_stay_hours : List (Option ℤ)) :
    Except String (List FlightItinerary) :=
  if list_flight_infos.length = 0 then
    .error "assert len(list_flight_infos) > 0"
  else if list_flight_infos.length = 1 then
    collectExcept mkFlightItinerary list_flight_infos
  else
    match collectExcept
        (fun starting_flight_info =>
          recurseFlights list_flight_infos.length list_flight_infos
            min_stay_hours max_stay_hours starting_flight_info [] 1)
        (list_flight_infos.headD []) with
    | .error e => .error e
    | .ok per_start => collectExcept mkFlightItinerary per_start.flatten

/-! ## city.py: create_flight_search_query, and flight_itinerary.py:
extract_queries -/

/-- `City.create_flight_search_query` from city.py (lines 130-169); the
two `assert`s are `Except.error`s. -/
def City.create_flight_search_query (departure_city arrival_city : City) :
    Except String FlightSearchFilters :=
  match departure_city.departure_date with
  | none => .error "assert departure_city.departure_date"
  | some dep_date =>
    let arrivalOk : Bool :=
      match arrival_city.arrival_date with
      | none => true
      | some arr_date => decide (arr_date ≥ dep_date)
    if ¬arrivalOk then
      .error "assert arrival_date is None or arrival_date >= departure_date"
    else
      .ok { trip_type := TripType.ONE_WAY,
            passenger_info := { adults := 1 },
            flight_segments := [
              { departure_airport :=
                  departure_city.airports.map (fun a => (a, 0)),
                arrival_airport :=
                  arrival_city.airports.map (fun a => (a, 0)),
                travel_date := dep_date,
                time_restrictions := some
                  { earliest_departure :=
                      (match departure_city.departure_time_range with
                       | some tr => tr.convert_time_range_to_hour_range
                       | none => (none, none)).1,
                    latest_departure :=
                      (match departure_city.departure_time_range with
                       | some tr => tr.convert_time_range_to_hour_range
                       | none => (none, none)).2,
                    earliest_arrival :=
                      (match arrival_city.arrival_time_range with
                       | some tr => tr.convert_time_range_to_hour_range
                       | none => (none, none)).1,
                    latest_arrival :=
                      (match arrival_city.arrival_time_range with
                       | some tr => tr.convert_time_range_to_hour_range
                       | none => (none, none)).2 } }],
            stops := departure_city.departure_flight_filter.stops,
            seat_type := departure_city.departure_flight_filter.seat_type,
            price_limit := departure_city.departure_flight_filter.price_limit,
            airlines := departure_city.departure_flight_filter.airlines,
            max_duration :=
              departure_city.departure_flight_filter.max_duration,
            layover_restrictions :=
              departure_city.departure_flight_filter.layover_restrictions,
            sort_by := SortBy.NONE }

/-- `FlightPath` from flight_itinerary.py: a pair of `City.id`s. -/
abbrev FlightPath := List String × List String

/-- `CityHashes` from flight_itinerary.py: a departure/arrival pair of
`City.hash` values. -/
abbrev CityHashes := CityHashKey × CityHashKey

/-- The `for flight_path_index in range(len(cities)-1)` loop of
`extract_queries` (flight_itinerary.py lines 250-287), walking adjacent
city pairs. Dicts are insertion-keyed association lists (a prepend is a
dict write: `List.lookup` finds the newest binding); every `assert` and
the dict `KeyError` are `Except.error`s. Note the source checks the
reversed path against the dict AFTER inserting the current path. -/
def extractLoop :
    List City →
    List (QueryHashKey × FlightSearchFilters) →
    List (QueryHashKey × (CityHashes × Option CityHashes)) →
    List (FlightPath × FlightSearchFilters) →
    Except String (List (QueryHashKey × FlightSearchFilters) ×
      List (QueryHashKey × (CityHashes × Option CityHashes)))
  | [], q2q, q2ch, _ => .ok (q2q, q2ch)
  | [_], q2q, q2ch, _ => .ok (q2q, q2ch)
  | departure_city :: arrival_city :: rest, q2q, q2ch, fp2q =>
    match City.create_flight_search_query departure_city arrival_city with
    | .error e => .error e
    | .ok one_way_query =>
      let query_hash := hash_flight_query one_way_query
      let q2q1 := if (q2q.lookup query_hash).isSome then q2q
        else (query_hash, one_way_query) :: q2q
      let city_hashes : CityHashes := (departure_city.hash, arrival_city.hash)
      let checked : Except String
          (List (QueryHashKey × (CityHashes × Option CityHashes))) :=
        match q2ch.lookup query_hash with
        | some existing =>
          if existing = (city_hashes, none) then .ok q2ch
          else .error "assert query_hash_to_city_hashes[qh] == (ch, None)"
        | none => .ok ((query_hash, (city_hashes, none)) :: q2ch)
      match checked with
      | .error e => .error e
      | .ok q2ch1 =>
        let flight_path : FlightPath := (departure_city.id, arrival_city.id)
        if (fp2q.lookup flight_path).isSome then
          .error "assert flight_path not in flight_paths_to_query"
        else
          let fp2q1 := (flight_path, one_way_query) :: fp2q
          let reversed_flight_path : FlightPath :=
            (flight_path.2, flight_path.1)
          match fp2q1.lookup reversed_flight_path with
          | none => extractLoop (arrival_city :: rest) q2q1 q2ch1 fp2q1
          | some departing_query =>
            match merge_flight_queries departing_query one_way_query with
            | .error e => .error e
            | .ok round_trip_query =>
              let rt_hash := hash_flight_query round_trip_query
              let q2q2 := if (q2q1.lookup rt_hash).isSome then q2q1
                else (rt_hash, round_trip_query) :: q2q1
              match q2ch1.lookup (hash_flight_query departing_query) with
              | none => .error "KeyError: departing query hash"
              | some (departing_city_hashes, should_be_none) =>
                if should_be_none.isSome then
                  .error "assert should_be_none is None"
                else
                  extractLoop (arrival_city :: rest) q2q2
                    ((rt_hash, (departing_city_hashes, some city_hashes))
                      :: q2ch1) fp2q1

/-- `extract_queries` from flight_itinerary.py (lines 229-289): returns
the updated `query_hash_to_query` dict and the
`query_hash_to_city_hashes` correlation map. -/
def extract_queries (cities : List City)
    (query_hash_to_query : List (QueryHashKey × FlightSearchFilters)) :
    Except String (List (QueryHashKey × FlightSearchFilters) ×
      List (QueryHashKey × (CityHashes × Option CityHashes))) :=
  extractLoop cities query_hash_to_query [] []

/-- The directed `(departure_city.id, arrival_city.id)` pairs of the
adjacent legs of a city itinerary. -/
def legPaths : List City → List FlightPath
  | c1 :: c2 :: rest => (c1.id, c2.id) :: legPaths (c2 :: rest)
  | _ => []

/-! ## Claim-side predicates and concrete sample data -/

/-- The merge preconditions of C4: both one-way, identical passenger info,
cabin class and sort mode, and mirror-image single-segment airport sets. -/
def MergeOK (d r : FlightSearchFilters) : Prop :=
  d.trip_type = TripType.ONE_WAY ∧ r.trip_type = TripType.ONE_WAY ∧
  d.passenger_info = r.passenger_info ∧ d.seat_type = r.seat_type ∧
  d.sort_by = r.sort_by ∧
  ∃ s1 s2, d.flight_segments = [s1] ∧ r.flight_segments = [s2] ∧
    s1.departure_airport.toFinset = s2.arrival_airport.toFinset ∧
    s1.arrival_airport.toFinset = s2.departure_airport.toFinset

/-- A one-way query London to Toronto on day 0 (no optional filters). -/
def qLhrYyz : FlightSearchFilters :=
  { trip_type := TripType.ONE_WAY,
    passenger_info := {},
    flight_segments := [{ departure_airport := [("LHR", 0)],
                          arrival_airport := [("YYZ", 0)],
                          travel_date := 0 }],
    stops := 2,
    seat_type := SeatType.ECONOMY,
    sort_by := SortBy.NONE }

/-- The mirror-image one-way query Toronto to London on day 5. -/
def qYyzLhr : FlightSearchFilters :=
  { trip_type := TripType.ONE_WAY,
    passenger_info := {},
    flight_segments := [{ departure_airport := [("YYZ", 0)],
                          arrival_airport := [("LHR", 0)],
                          travel_date := 5 }],
    stops := 1,
    seat_type := SeatType.ECONOMY,
    sort_by := SortBy.NONE }

/-- A departing offer priced 500. -/
def frDeparting500 : FlightResult :=
  { legs := [{ airline := "BA", flight_number := "93",
               departure_airport := "LHR", arrival_airport := "YYZ",
               departure_datetime := 10 * 3600000000,
               arrival_datetime := 18 * 3600000000, duration := 480 }],
    price := 500, duration := 480, stops := 0 }

/-- The paired returning offer priced 700. -/
def frReturning700 : FlightResult :=
  { legs := [{ airline := "BA", flight_number := "92",
               departure_airport := "YYZ", arrival_airport := "LHR",
               departure_datetime := 5 * 86400000000 + 10 * 3600000000,
               arrival_datetime := 5 * 86400000000 + 17 * 3600000000,
               duration := 420 }],
    price := 700, duration := 420, stops := 0 }

/-- A round-trip query's provider result: one (departing, returning) pair. -/
def resultsRT : List (FlightResult ⊕ FlightResult × FlightResult) :=
  [Sum.inr (frDeparting500, frReturning700)]

/-- The C1 gap conditions between two consecutive itinerary flights,
where `k` is the position of the second flight (the source's
`flight_infos_index`, which indexes the stay bounds): the next flight
departs strictly after the previous arrives, and the gap respects the
stay bounds supplied at index `k`. -/
def gapOK (mins maxs : List (Option ℤ)) (k : ℕ) (a b : FlightInfo) : Prop :=
  b.firstDeparture > a.lastArrival ∧
  (∀ m, mins[k]? = some (some m) →
    b.firstDeparture - a.lastArrival ≥ m) ∧
  (∀ M, maxs[k]? = some (some M) →
    b.firstDeparture - a.lastArrival ≤ M)

/-- The gap conditions along a flight sequence whose second element sits
at stay-bound index `k`. -/
def ChainFrom (mins maxs : List (Option ℤ)) : ℕ → List FlightInfo → Prop
  | _, [] => True
  | _, [_] => True
  | k, a :: b :: rest =>
    gapOK mins maxs k a b ∧ ChainFrom mins maxs (k + 1) (b :: rest)

/-- A one-way offer flying 10:00-18:00 on day 0. -/
def fOneWayA : FlightInfo :=
  { legs := [{ airline := "AC", flight_number := "861",
               departure_airport := "LHR", arrival_airport := "YYZ",
               departure_datetime := 10 * 3600000000,
               arrival_datetime := 18 * 3600000000, duration := 480 }],
    price := 300, duration := 480, stops := 0,
    flight_type := FlightType.ONE_WAY }

/-- A one-way offer flying 12:00-20:00 on day 0: it departs before
`fOneWayA` arrives. -/
def fOneWayB : FlightInfo :=
  { legs := [{ airline := "AC", flight_number := "54",
               departure_airport := "YYZ", arrival_airport := "JFK",
               departure_datetime := 12 * 3600000000,
               arrival_datetime := 20 * 3600000000, duration := 480 }],
    price := 320, duration := 480, stops := 0,
    flight_type := FlightType.ONE_WAY }

/-- A round-trip departing flight, day 0 10:00-18:00 (price already
normalized to 0). -/
def fRTDep : FlightInfo :=
  { legs := [{ airline := "BA", flight_number := "93",
               departure_airport := "LHR", arrival_airport := "YYZ",
               departure_datetime := 10 * 3600000000,
               arrival_datetime := 18 * 3600000000, duration := 480 }],
    price := 0, duration := 480, stops := 0,
    flight_type := FlightType.ROUND_TRIP_DEPARTING }

/-- The matching round-trip returning flight, day 5 10:00-17:00, linked
to `fRTDep` by parent id. -/
def fRTRet : FlightInfo :=
  { legs := [{ airline := "BA", flight_number := "92",
               departure_airport := "YYZ", arrival_airport := "LHR",
               departure_datetime := 5 * 86400000000 + 10 * 3600000000,
               arrival_datetime := 5 * 86400000000 + 17 * 3600000000,
               duration := 420 }],
    price := 700, duration := 420, stops := 0,
    flight_type := FlightType.ROUND_TRIP_RETURNING,
    parent_ids := [fRTDep.id] }

/-- The stored returning flight after parent-id linkage. -/
def retWithParent : FlightInfo :=
  { returningOfPair frDeparting500 frReturning700 with
    parent_ids := [(departingOfPair frDeparting500 frReturning700).id] }

/-- C7 as stated: the claimed rejection predicate for a date pair, with
`maxStay`/`minStay` computable only when both respective time bounds
exist and the whole-day fallback used only when no time windows exist at
all. -/
def claimedReject (cr : CityRange) (ad dd : ℤ) : Bool :=
  let maxStay : Option ℤ :=
    match cr.arrival_time_range, cr.departure_time_range with
    | none, none => some ((dd - ad) * 86400000000)
    | some atr, some dtr =>
      match atr.earliest, dtr.latest with
      | some ae, some dl =>
        some (datetimeCombine dd dl - datetimeCombine ad ae)
      | _, _ => none
    | _, _ => none
  let minStay : Option ℤ :=
    match cr.arrival_time_range, cr.departure_time_range with
    | none, none => some ((dd - ad) * 86400000000)
    | some atr, some dtr =>
      match atr.latest, dtr.earliest with
      | some al, some de =>
        some (datetimeCombine dd de - datetimeCombine ad al)
      | _, _ => none
    | _, _ => none
  (match cr.min_stay_hours, maxStay with
   | some b, some s => decide (s < b)
   | _, _ => false) ||
  ((match cr.max_stay_hours, minStay with
    | some b, some s => decide (s > b)
    | _, _ => false) ||
   decide (ad > dd))

/-- C7 amended: the rejection predicate actually applied by
`get_all_possible_city_configurations` to a pair with both dates present,
written out from the amended claim: a stay bound only rejects when it is
set and nonzero and the derived stay is defined and nonzero; the derived
stays fall back to the whole-day difference as soon as at least one of
the two time ranges is absent; and `arrivalDate > departureDate` always
rejects. -/
def amendedReject (cr : CityRange) (ad dd : ℤ) : Bool :=
  let maxStay : Option ℤ :=
    match cr.arrival_time_range, cr.departure_time_range with
    | some atr, some dtr =>
      match atr.earliest, dtr.latest with
      | some ae, some dl =>
        some (datetimeCombine dd dl - datetimeCombine ad ae)
      | _, _ => none
    | _, _ => some ((dd - ad) * 86400000000)
  let minStay : Option ℤ :=
    match cr.arrival_time_range, cr.departure_time_range with
    | some atr, some dtr =>
      match atr.latest, dtr.earliest with
      | some al, some de =>
        some (datetimeCombine dd de - datetimeCombine ad al)
      | _, _ => none
    | _, _ => some ((dd - ad) * 86400000000)
  (match cr.min_stay_hours, maxStay with
   | some b, some s => decide (b ≠ 0) && decide (s ≠ 0) && decide (s < b)
   | _, _ => false) ||
  ((match cr.max_stay_hours, minStay with
    | some b, some s => decide (b ≠ 0) && decide (s ≠ 0) && decide (s > b)
    | _, _ => false) ||
   decide (ad > dd))

/-- A city slot that arrives 8:00-19:00 and departs 18:00-20:00 on day 0. -/
def crLateDeparture : CityRange :=
  { airports := ["AAA"],
    arrival_date_range := some ⟨some 0, some 0⟩,
    arrival_time_range := some ⟨some ⟨8, 0, 0, 0⟩, some ⟨19, 0, 0, 0⟩⟩,
    departure_date_range := some ⟨some 0, some 0⟩,
    departure_time_range := some ⟨some ⟨18, 0, 0, 0⟩, some ⟨20, 0, 0, 0⟩⟩ }

/-- A successor city slot whose arrival window on day 0 is 9:00-10:00. -/
def crEarlyArrival : CityRange :=
  { airports := ["BBB"],
    arrival_date_range := some ⟨some 0, some 0⟩,
    arrival_time_range := some ⟨some ⟨9, 0, 0, 0⟩, some ⟨10, 0, 0, 0⟩⟩ }

/-- A slot with an arrival time window but no departure time window, a
36-hour minimum stay (in microseconds), and single-day date ranges
(arrival day 0, departure day 1). -/
def crHalfWindow : CityRange :=
  { airports := ["CCC"],
    min_stay_hours := some (36 * 3600000000),
    arrival_date_range := some ⟨some 0, some 0⟩,
    arrival_time_range := some ⟨some ⟨10, 0, 0, 0⟩, some ⟨12, 0, 0, 0⟩⟩,
    departure_date_range := some ⟨some 1, some 1⟩ }

/-- A slot with a 30-hour minimum stay, two-day arrival and departure date
ranges and no time windows. -/
def crStayDemo : CityRange :=
  { airports := ["DDD"],
    min_stay_hours := some (30 * 3600000000),
    arrival_date_range := some ⟨some 0, some 1⟩,
    departure_date_range := some ⟨some 0, some 1⟩ }

/-- City slot A (airports AAA) departing day 0. -/
def cityA0 : City := { airports := ["AAA"], departure_date := some 0 }

/-- City slot B (airports BBB), arriving day 0, departing day 2. -/
def cityB0 : City :=
  { airports := ["BBB"], arrival_date := some 0, departure_date := some 2 }

/-- City slot A again, arriving day 2, departing day 4. -/
def cityA1 : City :=
  { airports := ["AAA"], arrival_date := some 2, departure_date := some 4 }

/-- City slot B again, arriving day 4: the A-to-B leg repeats. -/
def cityB1 : City := { airports := ["BBB"], arrival_date := some 4 }

/-! ## C9 theorems -/

/-- C9 (corrected): for a `TimeRange` with both bounds present (and the
`Range` invariant `earliest <= latest`), `convert_time_range_to_hour_range`
returns earliest hour = floor of the earliest time's hour component and
latest hour = ceil of the latest time, incremented by one mod 24 when not
strictly greater than the earliest hour; and the returned latest hour is
strictly greater than the returned earliest hour whenever the latest time's
hour component is less than 23 (the mod-24 increment cannot wrap). -/
theorem convert_time_range_to_hour_range_spec (tr : TimeRange) (e l : Time)
    (he : tr.earliest = some e) (hl : tr.latest = some l)
    (hev : e.Valid) (hlv : l.Valid) (hle : e.le l) :
    ∃ eh lh, tr.convert_time_range_to_hour_range = (some eh, some lh) ∧
      eh = hour_floor e ∧
      lh = (if hour_ceil l ≤ eh then increment_hour (hour_ceil l)
            else hour_ceil l) ∧
      (l.hour < 23 → eh < lh) := by
  have hhour : e.hour ≤ l.hour := by
    by_contra hcon
    push_neg at hcon
    have := hle
    unfold Time.le Time.micro at this
    obtain ⟨_, hm, hs, hus⟩ := hev
    obtain ⟨_, hm2, hs2, hus2⟩ := hlv
    omega
  refine ⟨hour_floor e,
    (if hour_ceil l ≤ hour_floor e then increment_hour (hour_ceil l)
     else hour_ceil l), ?_, rfl, rfl, ?_⟩
  · unfold TimeRange.convert_time_range_to_hour_range
    rw [he, hl]
    by_cases h : hour_ceil l ≤ e.hour <;> simp [hour_floor, h]
  · intro hl23
    have hceil : hour_ceil l = l.hour ∨ hour_ceil l = l.hour + 1 := by
      unfold hour_ceil increment_hour
      split
      · exact Or.inl rfl
      · right; omega
    unfold hour_floor increment_hour
    rcases hceil with hc | hc <;> rcases Nat.lt_or_ge e.hour (hour_ceil l) with h | h
    · simpa [Nat.not_le.mpr h] using h
    · rw [if_pos h, hc]
      rw [hc] at h
      have : l.hour = e.hour := le_antisymm h hhour
      omega
    · simpa [Nat.not_le.mpr h] using h
    · rw [if_pos h, hc]
      omega

/-- C9 witness: a concrete time range 10:30–12:00 exercising the theorem. -/
theorem convert_time_range_to_hour_range_spec_witness :
    ∃ eh lh,
      TimeRange.convert_time_range_to_hour_range
        ⟨some ⟨10, 30, 0, 0⟩, some ⟨12, 0, 0, 0⟩⟩ = (some eh, some lh) ∧
      eh = hour_floor ⟨10, 30, 0, 0⟩ ∧
      lh = (if hour_ceil ⟨12, 0, 0, 0⟩ ≤ eh then
              increment_hour (hour_ceil ⟨12, 0, 0, 0⟩)
            else hour_ceil ⟨12, 0, 0, 0⟩) ∧
      ((⟨12, 0, 0, 0⟩ : Time).hour < 23 → eh < lh) :=
  convert_time_range_to_hour_range_spec ⟨some ⟨10, 30, 0, 0⟩, some ⟨12, 0, 0, 0⟩⟩
    ⟨10, 30, 0, 0⟩ ⟨12, 0, 0, 0⟩ rfl rfl (by decide) (by decide) (by decide)

/-- C9 counterexample: for the range 23:00–23:30 (which satisfies the
`Range` invariant) the converter returns `(23, 1)`, so the returned latest
hour is not strictly greater than the returned earliest hour: the claim's
unconditional non-degeneracy guarantee is false. -/
theorem convert_time_range_to_hour_range_wraps :
    (⟨23, 0, 0, 0⟩ : Time).le ⟨23, 30, 0, 0⟩ ∧
    TimeRange.convert_time_range_to_hour_range
      ⟨some ⟨23, 0, 0, 0⟩, some ⟨23, 30, 0, 0⟩⟩ = (some 23, some 1) ∧
    ¬ (23 : ℕ) < 1 := by
  refine ⟨by decide, ?_, by decide⟩
  decide

/-! ## C5 theorems -/

/-- C5 (code bug witness): two `DepartureFlightFilter`s that are equal up to
reordering the airline list (their sorted airline names agree) get different
hash keys, and so do two otherwise-identical `City` values carrying them:
`DepartureFlightFilter.hash` folds the airline list unsorted
(city.py line 54), unlike every other hashed collection, so `City.hash` is
not invariant under reordering the filter's airline list. -/
theorem city_hash_not_invariant_under_filter_airline_order :
    sortStrings ["AA", "BA"] = sortStrings ["BA", "AA"] ∧
    DepartureFlightFilter.hash { airlines := some ["AA", "BA"] } ≠
      DepartureFlightFilter.hash { airlines := some ["BA", "AA"] } ∧
    City.hash { airports := ["LHR"],
                departure_flight_filter := { airlines := some ["AA", "BA"] } } ≠
      City.hash { airports := ["LHR"],
                  departure_flight_filter := { airlines := some ["BA", "AA"] } } := by
  refine ⟨by decide, by decide, by decide⟩


/-! ## C3 theorems -/

/-- C3 (code bug witness): `get_city_itineraries` yields the pair even
though the predecessor's earliest possible departure instant (hour 18 of
day 0) is after the successor's latest possible arrival instant (hour 10
of day 0): city.py lines 312-313 take both `departure_datetime_range` and
`arrival_datetime_range` from `city_itinerary[i]`, never consulting the
successor's arrival window, contrary to the claim and to the method's own
docstring. -/
theorem get_city_itineraries_keeps_impossible_pair :
    CityRange.get_city_itineraries [crLateDeparture, crEarlyArrival] =
      [[crLateDeparture.mkCityConfig (some 0) (some 0),
        crEarlyArrival.mkCityConfig (some 0) none]] ∧
    (crLateDeparture.mkCityConfig (some 0) (some 0)).departure_datetime_range
      = some (18 * 3600000000, 20 * 3600000000) ∧
    (crEarlyArrival.mkCityConfig (some 0) none).arrival_datetime_range
      = some (9 * 3600000000, 10 * 3600000000) ∧
    (18 * 3600000000 : ℤ) > 10 * 3600000000 := by
  refine ⟨by decide, by decide, by decide, by decide⟩

/-! ## C7 theorems -/

/-- C7 counterexample: for `crHalfWindow` and the pair (day 0, day 1) the
claim as stated keeps the pair (one time window exists, so no whole-day
fallback, and `maxStay` is not computable, so no rejection and
arrival day 0 <= departure day 1), yet the code rejects it: city.py falls
back to the whole-day difference (24h < 36h) whenever at least one of the
two time ranges is absent, so the expansion is empty. -/
theorem get_all_possible_city_configurations_claim_false :
    claimedReject crHalfWindow 0 1 = false ∧ (0 : ℤ) ≤ 1 ∧
    crHalfWindow.get_all_possible_city_configurations = [] := by
  refine ⟨by decide, by decide, by decide⟩

lemma amendedReject_eq_stayReject_or_dateReject (cr : CityRange) (ad dd : ℤ) :
    amendedReject cr ad dd = (cr.stayReject ad dd || decide (ad > dd)) := by
  unfold amendedReject CityRange.stayReject CityRange.derivedStays
    stayBoundRejects
  cases cr.arrival_time_range with
  | none =>
    cases cr.departure_time_range <;> simp [Bool.or_assoc]
  | some atr =>
    cases cr.departure_time_range with
    | none => simp [Bool.or_assoc]
    | some dtr =>
      cases atr.earliest <;> cases atr.latest <;> cases dtr.earliest <;>
        cases dtr.latest <;> simp [Bool.or_assoc]

lemma flatMapOverMap (l : List α) (g : α → β) (f : β → List γ) :
    (l.map g).flatMap f = l.flatMap (fun x => f (g x)) := by
  induction l with
  | nil => rfl
  | cons a t ih => simp [List.flatMap_cons, ih]

lemma filterMapOverMap (l : List α) (g : α → β) (f : β → Option γ) :
    (l.map g).filterMap f = l.filterMap (fun x => f (g x)) := by
  induction l with
  | nil => rfl
  | cons a t ih => simp [List.filterMap_cons, ih]

/-- C7 (corrected): when both date ranges of a `CityRange` are fully
bounded (so every candidate pair has both dates present), the expansion
is exactly the Cartesian product of the two day ranges, filtered by the
amended rejection predicate, each surviving pair yielding one `City`
carrying the original time windows and filter unchanged. -/
theorem get_all_possible_city_configurations_amended (cr : CityRange)
    (ae al de dl : ℤ)
    (h1 : cr.arrival_date_range = some ⟨some ae, some al⟩)
    (h2 : cr.departure_date_range = some ⟨some de, some dl⟩) :
    cr.get_all_possible_city_configurations =
      (dateRangeDays ae al).flatMap (fun ad =>
        (dateRangeDays de dl).filterMap (fun dd =>
          if amendedReject cr ad dd then none
          else some (cr.mkCityConfig (some ad) (some dd)))) := by
  unfold CityRange.get_all_possible_city_configurations optionDates
  rw [h1, h2]
  rw [flatMapOverMap]
  apply List.flatMap_congr
  intro ad _
  rw [filterMapOverMap]
  apply List.filterMap_congr
  intro dd _
  rw [amendedReject_eq_stayReject_or_dateReject]
  by_cases hs : cr.stayReject ad dd
  · simp [hs]
  · by_cases hd : ad ≤ dd
    · simp [hs, hd, not_lt.mpr hd]
    · simp [hs, hd, lt_of_not_ge hd]

/-- C7 witness: instantiating the amended theorem at `crStayDemo`. -/
theorem get_all_possible_city_configurations_amended_witness :
    crStayDemo.get_all_possible_city_configurations =
      (dateRangeDays 0 1).flatMap (fun ad =>
        (dateRangeDays 0 1).filterMap (fun dd =>
          if amendedReject crStayDemo ad dd then none
          else some (crStayDemo.mkCityConfig (some ad) (some dd)))) :=
  get_all_possible_city_configurations_amended crStayDemo 0 1 0 1 rfl rfl

/-! ## C4 theorems -/

lemma dedupAppendToFinset (a b : List String) :
    (a ++ b).dedup.toFinset = a.toFinset ∪ b.toFinset := by
  ext z
  simp [List.mem_dedup]

lemma eqAsSets_iff (a b : List (String × ℤ)) :
    eqAsSets a b = true ↔ a.toFinset = b.toFinset := by
  unfold eqAsSets
  simp only [Bool.and_eq_true, List.all_eq_true, decide_eq_true_eq]
  constructor
  · rintro ⟨h1, h2⟩
    ext x
    simp only [List.mem_toFinset]
    exact ⟨h1 x, h2 x⟩
  · intro h
    have hx := Finset.ext_iff.mp h
    simp only [List.mem_toFinset] at hx
    exact ⟨fun x hxa => (hx x).mp hxa, fun x hxb => (hx x).mpr hxb⟩

lemma merge_flight_queries_ok_iff (d r : FlightSearchFilters) :
    (∃ q, merge_flight_queries d r = .ok q) ↔ MergeOK d r := by
  constructor
  · rintro ⟨q, hq⟩
    unfold merge_flight_queries at hq
    split_ifs at hq with h1 h2 h3 h4
    rcases hds : d.flight_segments with _ | ⟨s1, _ | ⟨s1b, t1⟩⟩ <;>
      rcases hrs : r.flight_segments with _ | ⟨s2, _ | ⟨s2b, t2⟩⟩ <;>
        simp only [hds, hrs] at hq <;> try exact Except.noConfusion hq
    by_cases h5 : eqAsSets s1.departure_airport s2.arrival_airport = true
    · rw [if_neg (not_not_intro h5)] at hq
      by_cases h6 : eqAsSets s1.arrival_airport s2.departure_airport = true
      · exact ⟨h1.1, h1.2, not_not.mp h2, not_not.mp h3, not_not.mp h4, s1, s2,
          hds, hrs, (eqAsSets_iff _ _).mp h5, (eqAsSets_iff _ _).mp h6⟩
      · rw [if_pos h6] at hq
        exact Except.noConfusion hq
    · rw [if_pos h5] at hq
      exact Except.noConfusion hq
  · rintro ⟨ht1, ht2, hpi, hst, hsb, s1, s2, hd1, hr1, hm1, hm2⟩
    cases hm : merge_flight_queries d r with
    | ok q => exact ⟨q, rfl⟩
    | error e =>
      unfold merge_flight_queries at hm
      rw [if_neg (by simp [ht1, ht2]), if_neg (by simp [hpi]),
        if_neg (by simp [hst]), if_neg (by simp [hsb])] at hm
      simp only [hd1, hr1] at hm
      rw [if_neg (not_not_intro ((eqAsSets_iff _ _).mpr hm1)),
        if_neg (not_not_intro ((eqAsSets_iff _ _).mpr hm2))] at hm
      exact Except.noConfusion hm

lemma merge_flight_queries_fields (d r : FlightSearchFilters) (q : FlightSearchFilters)
    (hq : merge_flight_queries d r = .ok q) :
    q.trip_type = TripType.ROUND_TRIP ∧
    q.passenger_info = d.passenger_info ∧
    q.seat_type = d.seat_type ∧
    q.sort_by = d.sort_by ∧
    (∃ s1 s2, d.flight_segments = [s1] ∧ r.flight_segments = [s2] ∧
      q.flight_segments = [s1, s2]) ∧
    q.stops = max d.stops r.stops ∧
    (q.price_limit.map PriceLimit.max_price =
      match d.price_limit, r.price_limit with
      | some p1, some p2 => some (p1.max_price + p2.max_price)
      | _, _ => none) ∧
    (match d.airlines, r.airlines with
     | some a1, some a2 =>
       ∃ l, q.airlines = some l ∧ l.toFinset = a1.toFinset ∪ a2.toFinset
     | _, _ => q.airlines = none) ∧
    (q.max_duration =
      match d.max_duration, r.max_duration with
      | some x, some y => some (max x y)
      | _, _ => none) ∧
    (match d.layover_restrictions, r.layover_restrictions with
     | some l1, some l2 =>
       ∃ lr, q.layover_restrictions = some lr ∧
         (match l1.airports, l2.airports with
          | some x, some y =>
            ∃ u, lr.airports = some u ∧ u.toFinset = x.toFinset ∪ y.toFinset
          | _, _ => lr.airports = none) ∧
         lr.max_duration =
           (match l1.max_duration, l2.max_duration with
            | some x, some y => some (max x y)
            | _, _ => none)
     | _, _ => q.layover_restrictions = none) := by
  unfold merge_flight_queries at hq
  split_ifs at hq with h1 h2 h3 h4
  rcases hds : d.flight_segments with _ | ⟨s1, _ | ⟨s1b, t1⟩⟩ <;>
    rcases hrs : r.flight_segments with _ | ⟨s2, _ | ⟨s2b, t2⟩⟩ <;>
      simp only [hds, hrs] at hq <;> try exact Except.noConfusion hq
  by_cases h5 : eqAsSets s1.departure_airport s2.arrival_airport = true
  case neg => rw [if_pos h5] at hq; exact Except.noConfusion hq
  rw [if_neg (not_not_intro h5)] at hq
  by_cases h6 : eqAsSets s1.arrival_airport s2.departure_airport = true
  case neg => rw [if_pos h6] at hq; exact Except.noConfusion hq
  rw [if_neg (not_not_intro h6)] at hq
  have hq' := (Except.ok.injEq _ _).mp hq
  subst hq'
  refine ⟨rfl, rfl, rfl, rfl, ⟨s1, s2, rfl, rfl, rfl⟩, rfl, ?_, ?_, ?_, ?_⟩
  · cases d.price_limit <;> cases r.price_limit <;> rfl
  · cases d.airlines with
    | none => cases r.airlines <;> rfl
    | some a1 =>
      cases r.airlines with
      | none => rfl
      | some a2 =>
        exact ⟨(a1 ++ a2).dedup, rfl, dedupAppendToFinset a1 a2⟩
  · cases d.max_duration <;> cases r.max_duration <;> rfl
  · cases d.layover_restrictions with
    | none => cases r.layover_restrictions <;> rfl
    | some l1 =>
      cases r.layover_restrictions with
      | none => rfl
      | some l2 =>
        refine ⟨_, rfl, ?_, ?_⟩
        · cases hx : l1.airports with
          | none => cases l2.airports <;> simp
          | some x =>
            cases hy : l2.airports with
            | none => simp
            | some y =>
              exact ⟨(x ++ y).dedup, by simp [hx, hy], dedupAppendToFinset x y⟩
        · rfl

/-- C4 (confirmed): `merge_flight_queries` succeeds exactly when both
queries are one-way, have identical passenger info, cabin class and sort
mode, and mirror-image single-segment airport sets; and on success the
merged query is the round trip with the departing then returning segment,
price ceiling the sum when both set else absent, airline allow-list the
union when both set else absent, max duration the max when both set else
absent, layover restriction merging airports by union and duration caps by
max (each when both set else absent), and max stops the max of the two
stop caps. In the source the failure is an `AssertionError`; the spec
names it `IncompatibleMergeError`. -/
theorem merge_flight_queries_spec (d r : FlightSearchFilters) :
    ((∃ q, merge_flight_queries d r = .ok q) ↔ MergeOK d r) ∧
    (∀ q, merge_flight_queries d r = .ok q →
      q.trip_type = TripType.ROUND_TRIP ∧
      q.passenger_info = d.passenger_info ∧
      q.seat_type = d.seat_type ∧
      q.sort_by = d.sort_by ∧
      (∃ s1 s2, d.flight_segments = [s1] ∧ r.flight_segments = [s2] ∧
        q.flight_segments = [s1, s2]) ∧
      q.stops = max d.stops r.stops ∧
      (q.price_limit.map PriceLimit.max_price =
        match d.price_limit, r.price_limit with
        | some p1, some p2 => some (p1.max_price + p2.max_price)
        | _, _ => none) ∧
      (match d.airlines, r.airlines with
       | some a1, some a2 =>
         ∃ l, q.airlines = some l ∧ l.toFinset = a1.toFinset ∪ a2.toFinset
       | _, _ => q.airlines = none) ∧
      (q.max_duration =
        match d.max_duration, r.max_duration with
        | some x, some y => some (max x y)
        | _, _ => none) ∧
      (match d.layover_restrictions, r.layover_restrictions with
       | some l1, some l2 =>
         ∃ lr, q.layover_restrictions = some lr ∧
           (match l1.airports, l2.airports with
            | some x, some y =>
              ∃ u, lr.airports = some u ∧ u.toFinset = x.toFinset ∪ y.toFinset
            | _, _ => lr.airports = none) ∧
           lr.max_duration =
             (match l1.max_duration, l2.max_duration with
              | some x, some y => some (max x y)
              | _, _ => none)
       | _, _ => q.layover_restrictions = none)) :=
  ⟨merge_flight_queries_ok_iff d r,
   fun q hq => merge_flight_queries_fields d r q hq⟩

/-- C4 witness: the mirror-image London/Toronto pair merges successfully
into a round trip whose stop cap is the max of the two. -/
theorem merge_flight_queries_spec_witness :
    ∃ q, merge_flight_queries qLhrYyz qYyzLhr = .ok q ∧
      q.trip_type = TripType.ROUND_TRIP ∧ q.stops = 2 := by
  obtain ⟨q, hq⟩ := (merge_flight_queries_spec qLhrYyz qYyzLhr).1.mpr
    ⟨rfl, rfl, rfl, rfl, rfl, _, _, rfl, rfl, by decide, by decide⟩
  obtain ⟨h1, _, _, _, _, h6, _⟩ :=
    (merge_flight_queries_spec qLhrYyz qYyzLhr).2 q hq
  exact ⟨q, hq, h1, h6⟩

/-! ## C6 theorems -/

lemma mem_insertIfAbsent {l : List FlightInfo} {f g : FlightInfo}
    (h : g ∈ insertIfAbsent l f) : g ∈ l ∨ g = f := by
  unfold insertIfAbsent at h
  split at h
  · exact Or.inl h
  · rcases List.mem_append.mp h with h | h
    · exact Or.inl h
    · exact Or.inr (List.mem_singleton.mp h)

lemma nodup_map_id_insertIfAbsent {l : List FlightInfo} {f : FlightInfo}
    (h : (l.map FlightInfo.id).Nodup) :
    ((insertIfAbsent l f).map FlightInfo.id).Nodup := by
  unfold insertIfAbsent
  split
  · exact h
  · rename_i hany
    rw [List.map_append]
    refine List.Nodup.append h (by simp) ?_
    intro x hx hy
    simp only [List.map_cons, List.map_nil, List.mem_singleton] at hy
    subst hy
    rcases List.mem_map.mp hx with ⟨g, hg, hgid⟩
    exact hany (List.any_eq_true.mpr ⟨g, hg, by simp [hgid]⟩)

lemma map_id_appendParent (l : List FlightInfo) (k p : FlightId) :
    (appendParent l k p).map FlightInfo.id = l.map FlightInfo.id := by
  unfold appendParent
  rw [List.map_map]
  apply List.map_congr_left
  intro g _
  show FlightInfo.id
    (if g.id = k then { g with parent_ids := g.parent_ids ++ [p] } else g) =
      FlightInfo.id g
  by_cases hg : g.id = k
  · rw [if_pos hg]
    rfl
  · rw [if_neg hg]

lemma mem_appendParent {l : List FlightInfo} {k p : FlightId}
    {g : FlightInfo} (h : g ∈ appendParent l k p) :
    ∃ g', g' ∈ l ∧ g.flight_type = g'.flight_type ∧ g.price = g'.price ∧
      g.id = g'.id := by
  unfold appendParent at h
  rcases List.mem_map.mp h with ⟨g', hg', heq⟩
  refine ⟨g', hg', ?_⟩
  subst heq
  by_cases hk : g'.id = k
  · rw [if_pos hk]
    exact ⟨rfl, rfl, rfl⟩
  · rw [if_neg hk]
    exact ⟨rfl, rfl, rfl⟩

lemma processFoldInv
    (results l : List (FlightResult ⊕ FlightResult × FlightResult))
    (hl : ∀ x ∈ l, (∃ a b, x = Sum.inr (a, b)) ∧ x ∈ results)
    (st : List FlightInfo × List FlightInfo)
    (h1 : ∀ d ∈ st.1, d.flight_type = FlightType.ROUND_TRIP_DEPARTING ∧
      d.price = 0 ∧ ∃ a b, Sum.inr (a, b) ∈ results ∧ d = departingOfPair a b)
    (h2 : ∀ r ∈ st.2, r.flight_type = FlightType.ROUND_TRIP_RETURNING ∧
      ∃ a b, Sum.inr (a, b) ∈ results ∧ r.price = max a.price b.price ∧
        r.id = (returningOfPair a b).id)
    (h3 : (st.1.map FlightInfo.id).Nodup)
    (h4 : (st.2.map FlightInfo.id).Nodup) :
    (∀ d ∈ (l.foldl processFlightResult st).1,
      d.flight_type = FlightType.ROUND_TRIP_DEPARTING ∧ d.price = 0 ∧
      ∃ a b, Sum.inr (a, b) ∈ results ∧ d = departingOfPair a b) ∧
    (∀ r ∈ (l.foldl processFlightResult st).2,
      r.flight_type = FlightType.ROUND_TRIP_RETURNING ∧
      ∃ a b, Sum.inr (a, b) ∈ results ∧ r.price = max a.price b.price ∧
        r.id = (returningOfPair a b).id) ∧
    ((l.foldl processFlightResult st).1.map FlightInfo.id).Nodup ∧
    ((l.foldl processFlightResult st).2.map FlightInfo.id).Nodup := by
  induction l generalizing st with
  | nil => exact ⟨h1, h2, h3, h4⟩
  | cons x t ih =>
    obtain ⟨⟨a, b, rfl⟩, hmem⟩ := hl x (by simp)
    rw [List.foldl_cons]
    refine ih (fun y hy => hl y (by simp [hy])) _ ?_ ?_ ?_ ?_
    · intro d hd
      rcases mem_insertIfAbsent hd with hd | rfl
      · exact h1 d hd
      · exact ⟨rfl, rfl, a, b, hmem, rfl⟩
    · intro r hr
      obtain ⟨r', hr', hft, hpr, hid⟩ := mem_appendParent hr
      rcases mem_insertIfAbsent hr' with hr' | rfl
      · obtain ⟨hft', a', b', hmem', hpr', hid'⟩ := h2 r' hr'
        exact ⟨hft.trans hft', a', b', hmem', hpr.trans hpr', hid.trans hid'⟩
      · exact ⟨hft, a, b, hmem, hpr, hid⟩
    · exact nodup_map_id_insertIfAbsent h3
    · show ((appendParent (insertIfAbsent st.2 (returningOfPair a b))
        (returningOfPair a b).id (departingOfPair a b).id).map
          FlightInfo.id).Nodup
      rw [map_id_appendParent]
      exact nodup_map_id_insertIfAbsent h4

/-- C6 (confirmed): for a round-trip query (every provider result is a
pair), every departing flight in the processed output has price 0, every
returning flight's price is the max of its pair's original departing and
returning prices, and deduplication happened on the ids of the
price-normalized flights: each output id equals the id of the normalized
pair flight, and the stored ids are duplicate-free. -/
theorem search_flights_round_trip_price_normalization
    (results : List (FlightResult ⊕ FlightResult × FlightResult))
    (hpairs : ∀ x ∈ results, ∃ a b, x = Sum.inr (a, b))
    (deps rets : List FlightInfo)
    (h : search_flights_process (some results) = (deps, rets)) :
    (∀ d ∈ deps, d.flight_type = FlightType.ROUND_TRIP_DEPARTING ∧
      d.price = 0 ∧
      ∃ a b, Sum.inr (a, b) ∈ results ∧ d = departingOfPair a b) ∧
    (∀ r ∈ rets, r.flight_type = FlightType.ROUND_TRIP_RETURNING ∧
      ∃ a b, Sum.inr (a, b) ∈ results ∧ r.price = max a.price b.price ∧
        r.id = (returningOfPair a b).id) ∧
    (deps.map FlightInfo.id).Nodup ∧ (rets.map FlightInfo.id).Nodup := by
  have hinv := processFoldInv results results
    (fun x hx => ⟨hpairs x hx, hx⟩) ([], [])
    (by intro d hd; cases hd) (by intro r hr; cases hr) (by simp) (by simp)
  have h' : List.foldl processFlightResult ([], []) results = (deps, rets) := h
  rw [h'] at hinv
  exact hinv

/-- C6 witness: the spec's example pair priced 500 (departing) / 700
(returning) normalizes to 0 / 700, and the theorem instantiates on it. -/
theorem search_flights_round_trip_price_normalization_witness :
    search_flights_process (some resultsRT) =
      ([departingOfPair frDeparting500 frReturning700], [retWithParent]) ∧
    (departingOfPair frDeparting500 frReturning700).price = 0 ∧
    (returningOfPair frDeparting500 frReturning700).price = 700 ∧
    ((∀ d ∈ (search_flights_process (some resultsRT)).1,
        d.flight_type = FlightType.ROUND_TRIP_DEPARTING ∧ d.price = 0 ∧
        ∃ a b, Sum.inr (a, b) ∈ resultsRT ∧ d = departingOfPair a b) ∧
     (∀ r ∈ (search_flights_process (some resultsRT)).2,
        r.flight_type = FlightType.ROUND_TRIP_RETURNING ∧
        ∃ a b, Sum.inr (a, b) ∈ resultsRT ∧
          r.price = max a.price b.price ∧ r.id = (returningOfPair a b).id) ∧
     ((search_flights_process (some resultsRT)).1.map FlightInfo.id).Nodup ∧
     ((search_flights_process (some resultsRT)).2.map FlightInfo.id).Nodup) := by
  refine ⟨rfl, rfl, ?_, ?_⟩
  · show max (500 : ℚ) 700 = 700
    decide
  · exact search_flights_round_trip_price_normalization resultsRT
      (by intro x hx
          simp only [resultsRT, List.mem_singleton] at hx
          exact ⟨frDeparting500, frReturning700, hx⟩)
      _ _ rfl

/-! ## C2 and C8 theorems -/

/-- C2 (code bug witness): called with a single leg-candidate list holding
two candidate flights, `generate_flight_itineraries` returns ONE
`FlightItinerary` containing BOTH candidates as consecutive legs — the
line-368 comprehension iterates the outer `list_flight_infos`, not the
candidate list — instead of one single-flight itinerary per candidate as
the claim (and the surrounding docstrings) describe. -/
theorem generate_flight_itineraries_single_leg_eval :
    generate_flight_itineraries [[fOneWayA, fOneWayB]] [none] [none] =
      .ok [⟨[fOneWayA, fOneWayB]⟩] ∧
    (⟨[fOneWayA, fOneWayB]⟩ : FlightItinerary).flight_infos.length = 2 ∧
    fOneWayA ≠ fOneWayB := by
  refine ⟨by rfl, by rfl, by decide⟩

/-- C8 (code bug witness): with a single empty leg-candidate list the
n = 1 path constructs `FlightItinerary(flight_infos=[])`, whose
`__post_init__` assertion fails, so the call raises instead of returning
zero itineraries; for n >= 2 an empty candidate list does yield zero
itineraries without an error, as the claim states. -/
theorem generate_flight_itineraries_empty_candidates_eval :
    generate_flight_itineraries [[]] [] [] =
      .error "assert len(self.flight_infos) > 0" ∧
    generate_flight_itineraries [[], [fOneWayB]] [none, none] [none, none] =
      .ok [] ∧
    generate_flight_itineraries [[fOneWayA], []] [none, none] [none, none] =
      .ok [] := by
  refine ⟨by rfl, by rfl, by rfl⟩

/-! ## C1 theorems -/

/-- C1 counterexample: the claim quantifies over ANY leg-candidate lists,
but through the n = 1 path the function produces an itinerary whose
consecutive flights violate `next.departure_datetime >
previous.arrival_datetime` (the second candidate departs at 12:00, before
the first arrives at 18:00): no time check runs on that path. -/
theorem generate_flight_itineraries_invariant_fails_single_leg :
    generate_flight_itineraries [[fOneWayA, fOneWayB]] [none] [none] =
      .ok [⟨[fOneWayA, fOneWayB]⟩] ∧
    ¬ fOneWayB.firstDeparture > fOneWayA.lastArrival := by
  refine ⟨by rfl, by decide⟩

lemma collectExcept_mem {f : α → Except ε β} :
    ∀ {l : List α} {r : List β}, collectExcept f l = .ok r →
      ∀ b ∈ r, ∃ a ∈ l, f a = .ok b := by
  intro l
  induction l with
  | nil =>
    intro r h b hb
    rw [collectExcept] at h
    cases h
    cases hb
  | cons a t ih =>
    intro r h b hb
    rw [collectExcept] at h
    cases hfa : f a with
    | error e => rw [hfa] at h; exact Except.noConfusion h
    | ok b0 =>
      rw [hfa] at h
      cases hct : collectExcept f t with
      | error e => rw [hct] at h; exact Except.noConfusion h
      | ok bs =>
        rw [hct] at h
        cases h
        rcases List.mem_cons.mp hb with rfl | hb
        · exact ⟨a, by simp, hfa⟩
        · obtain ⟨a', ha', hfa'⟩ := ih hct b hb
          exact ⟨a', by simp [ha'], hfa'⟩

lemma stayOk_gapOK (mins maxs : List (Option ℤ)) (idx : ℕ)
    (prev nxt : FlightInfo) (minB maxB : Option ℤ)
    (hmin : mins[idx]? = some minB) (hmax : maxs[idx]? = some maxB)
    (hst : stayOk (nxt.firstDeparture - prev.lastArrival) minB maxB = true) :
    gapOK mins maxs idx prev nxt := by
  unfold stayOk at hst
  simp only [Bool.and_eq_true, decide_eq_true_eq] at hst
  obtain ⟨⟨h1, h2⟩, h3⟩ := hst
  refine ⟨by omega, ?_, ?_⟩
  · intro m hm
    rw [hmin] at hm
    injection hm with hm
    subst hm
    simpa using h1
  · intro M hM
    rw [hmax] at hM
    injection hM with hM
    subst hM
    simpa using h2

lemma recurseCandidates_sound (ls : List (List FlightInfo))
    (mins maxs : List (Option ℤ)) (prev : FlightInfo)
    (open_ids : List FlightId) (idx : ℕ)
    (recurseNext : FlightInfo → List FlightId →
      Except String (List (List FlightInfo)))
    (hnext : ∀ nxt child seqs2, recurseNext nxt child = .ok seqs2 →
      ∀ seq ∈ seqs2, ∃ tail, seq = nxt :: tail ∧
        ChainFrom mins maxs (idx + 1) seq) :
    ∀ cands seqs,
      recurseCandidates ls mins maxs prev open_ids idx recurseNext cands =
        .ok seqs →
      ∀ seq ∈ seqs, ∃ tail, seq = prev :: tail ∧
        ChainFrom mins maxs idx seq := by
  intro cands
  induction cands with
  | nil =>
    intro seqs h seq hseq
    rw [recurseCandidates] at h
    cases h
    cases hseq
  | cons next rest ih =>
    intro seqs h seq hseq
    rw [recurseCandidates] at h
    split at h
    · exact Except.noConfusion h
    · rename_i contribution hstep
      split at h
      · exact Except.noConfusion h
      · rename_i others hothers
        cases h
        rcases List.mem_append.mp hseq with hseq | hseq
        · -- seq came from this candidate's contribution
          split at hstep
          · exact Except.noConfusion hstep
          · cases hstep
            cases hseq
          · rename_i next' child_open heq
            split at hstep
            · rename_i minB maxB hmin hmax
              split at hstep
              · rename_i hstay
                split at hstep
                · -- base case: last leg
                  split at hstep
                  · cases hstep
                    rcases List.mem_singleton.mp hseq with rfl
                    refine ⟨[next'], rfl, ?_, trivial⟩
                    exact stayOk_gapOK mins maxs idx prev next' minB maxB
                      hmin hmax hstay
                  · cases hstep
                    cases hseq
                · -- recursive case
                  split at hstep
                  · exact Except.noConfusion hstep
                  · rename_i children hchildren
                    cases hstep
                    rcases List.mem_map.mp hseq with ⟨seq', hseq', rfl⟩
                    obtain ⟨tail, rfl, hchain⟩ :=
                      hnext next' child_open children hchildren seq' hseq'
                    refine ⟨next' :: tail, rfl, ?_, hchain⟩
                    exact stayOk_gapOK mins maxs idx prev next' minB maxB
                      hmin hmax hstay
              · cases hstep
                cases hseq
            · exact Except.noConfusion hstep
        · exact ih others hothers seq hseq

lemma recurseFlights_sound :
    ∀ (fuel : ℕ) (ls : List (List FlightInfo))
      (mins maxs : List (Option ℤ)) (prev : FlightInfo)
      (open_ids : List FlightId) (idx : ℕ)
      (seqs : List (List FlightInfo)),
      recurseFlights fuel ls mins maxs prev open_ids idx = .ok seqs →
      ∀ seq ∈ seqs, ∃ tail, seq = prev :: tail ∧
        ChainFrom mins maxs idx seq := by
  intro fuel
  induction fuel with
  | zero =>
    intro ls mins maxs prev open_ids idx seqs h
    exact Except.noConfusion h
  | succ fuel' ih =>
    intro ls mins maxs prev open_ids idx seqs h
    rw [recurseFlights] at h
    exact recurseCandidates_sound ls mins maxs prev _ idx _
      (fun nxt child seqs2 h2 =>
        ih ls mins maxs nxt child (idx + 1) seqs2 h2)
      _ seqs h

lemma chainFrom_index (mins maxs : List (Option ℤ)) :
    ∀ (l : List FlightInfo) (k : ℕ), ChainFrom mins maxs k l →
      ∀ i, (hi : i + 1 < l.length) →
        gapOK mins maxs (k + i) l[i] l[i + 1] := by
  intro l
  induction l with
  | nil =>
    intro k _ i hi
    simp at hi
  | cons a t iht =>
    intro k h i hi
    cases t with
    | nil => simp at hi
    | cons b rest =>
      simp only [ChainFrom] at h
      obtain ⟨hgap, hchain⟩ := h
      cases i with
      | zero => simpa using hgap
      | succ i' =>
        have := iht (k + 1) hchain i' (by simpa using hi)
        have hk : k + 1 + i' = k + (i' + 1) := by omega
        rw [hk] at this
        simpa using this

lemma computeGroupIds_parents :
    ∀ (l : List FlightInfo) (mapping : List (FlightId × ℕ)) (gid : ℕ)
      (gids : List ℕ),
      computeGroupIds mapping gid l = some gids →
      ∀ i, (hi : i < l.length) →
        l[i].flight_type = FlightType.ROUND_TRIP_RETURNING →
        ∃ p, l[i].parent_ids = [p] ∧
          ((∃ g, mapping.lookup p = some g) ∨
            ∃ j, ∃ _ : j < i,
              l[j].flight_type = FlightType.ROUND_TRIP_DEPARTING ∧
              l[j].id = p) := by
  intro l
  induction l with
  | nil =>
    intro mapping gid gids _ i hi
    simp at hi
  | cons f rest ih =>
    intro mapping gid gids h i hi hret
    rw [computeGroupIds] at h
    cases i with
    | zero =>
      simp only [List.getElem_cons_zero] at hret ⊢
      rw [if_pos hret] at h
      rcases hp : f.parent_ids with _ | ⟨p, _ | ⟨p2, t2⟩⟩
      · have h' : (none : Option (List ℕ)) = some gids := by
          rw [hp] at h; exact h
        exact Option.noConfusion h'
      · have h' : (match mapping.lookup p with
            | some g => (computeGroupIds mapping gid rest).map (g :: ·)
            | none => none) = some gids := by
          rw [hp] at h; exact h
        refine ⟨p, rfl, ?_⟩
        cases hlk : mapping.lookup p with
        | some g => exact Or.inl ⟨g, rfl⟩
        | none =>
          rw [hlk] at h'
          exact Option.noConfusion h'
      · have h' : (none : Option (List ℕ)) = some gids := by
          rw [hp] at h; exact h
        exact Option.noConfusion h'
    | succ i' =>
      simp only [List.getElem_cons_succ] at hret ⊢
      have hi' : i' < rest.length := by simpa using hi
      split at h
      · rename_i hfret
        rcases hp : f.parent_ids with _ | ⟨p0, _ | ⟨p2, t2⟩⟩
        · have h' : (none : Option (List ℕ)) = some gids := by
            rw [hp] at h; exact h
          exact Option.noConfusion h'
        · have h' : (match mapping.lookup p0 with
              | some g => (computeGroupIds mapping gid rest).map (g :: ·)
              | none => none) = some gids := by
            rw [hp] at h; exact h
          cases hlk : mapping.lookup p0 with
          | none =>
            rw [hlk] at h'
            exact Option.noConfusion h'
          | some g =>
            rw [hlk] at h'
            cases hrest : computeGroupIds mapping gid rest with
            | none => rw [hrest] at h'; exact Option.noConfusion h'
            | some gids' =>
              obtain ⟨p, hp1, hp2⟩ := ih mapping gid gids' hrest i' hi' hret
              refine ⟨p, hp1, ?_⟩
              rcases hp2 with hin | ⟨j, hj, hjd, hjid⟩
              · exact Or.inl hin
              · exact Or.inr ⟨j + 1, by omega, by simpa using hjd,
                  by simpa using hjid⟩
        · have h' : (none : Option (List ℕ)) = some gids := by
            rw [hp] at h; exact h
          exact Option.noConfusion h'
      · rename_i hfnotret
        cases hrest : computeGroupIds
            (if f.flight_type = FlightType.ROUND_TRIP_DEPARTING then
              (f.id, gid) :: mapping
             else mapping) (gid + 1) rest with
        | none => rw [hrest] at h; exact Option.noConfusion h
        | some gids' =>
          obtain ⟨p, hp1, hp2⟩ := ih _ (gid + 1) gids' hrest i' hi' hret
          refine ⟨p, hp1, ?_⟩
          rcases hp2 with ⟨g, hin⟩ | ⟨j, hj, hjd, hjid⟩
          · by_cases hfd : f.flight_type = FlightType.ROUND_TRIP_DEPARTING
            · rw [if_pos hfd] at hin
              by_cases hpe : p = f.id
              · exact Or.inr ⟨0, by omega, by simpa using hfd,
                  by simp [hpe]⟩
              · have hbe : (p == f.id) = false := by
                  simpa using hpe
                simp only [List.lookup, hbe] at hin
                exact Or.inl ⟨g, hin⟩
            · rw [if_neg hfd] at hin
              exact Or.inl ⟨g, hin⟩
          · exact Or.inr ⟨j + 1, by omega, by simpa using hjd,
              by simpa using hjid⟩

/-- C1 (corrected): for every `FlightItinerary` produced by
`generate_flight_itineraries` when called with at least two leg-candidate
lists, every pair of consecutive flights departs strictly after the
previous arrival; whenever a min or max stay-hour bound was supplied for
the stopover between them (the bound list is indexed by the position of
the later flight, as in the source), the gap lies within those bounds;
and every ROUND_TRIP_RETURNING flight carries exactly one parent id, which
equals the id of an earlier ROUND_TRIP_DEPARTING flight in the same
sequence. -/
theorem generate_flight_itineraries_invariant
    (ls : List (List FlightInfo)) (mins maxs : List (Option ℤ))
    (its : List FlightItinerary) (hn : 2 ≤ ls.length)
    (h : generate_flight_itineraries ls mins maxs = .ok its) :
    ∀ it ∈ its,
      (∀ i, (hi : i + 1 < it.flight_infos.length) →
        it.flight_infos[i + 1].firstDeparture >
          it.flight_infos[i].lastArrival ∧
        (∀ m, mins[i + 1]? = some (some m) →
          it.flight_infos[i + 1].firstDeparture -
            it.flight_infos[i].lastArrival ≥ m) ∧
        (∀ M, maxs[i + 1]? = some (some M) →
          it.flight_infos[i + 1].firstDeparture -
            it.flight_infos[i].lastArrival ≤ M)) ∧
      (∀ i, (hi : i < it.flight_infos.length) →
        it.flight_infos[i].flight_type = FlightType.ROUND_TRIP_RETURNING →
        ∃ p, it.flight_infos[i].parent_ids = [p] ∧
          ∃ j, ∃ _ : j < i,
            it.flight_infos[j].flight_type =
              FlightType.ROUND_TRIP_DEPARTING ∧
            it.flight_infos[j].id = p) := by
  intro it hit
  unfold generate_flight_itineraries at h
  rw [if_neg (by omega), if_neg (by omega)] at h
  cases hps : collectExcept
      (fun s => recurseFlights ls.length ls mins maxs s [] 1)
      (ls.headD []) with
  | error e => rw [hps] at h; exact Except.noConfusion h
  | ok per_start =>
    rw [hps] at h
    obtain ⟨seq, hseqmem, hmk⟩ := collectExcept_mem h it hit
    rcases List.mem_flatten.mp hseqmem with ⟨chunk, hchunk, hseqchunk⟩
    obtain ⟨start, hstartmem, hrf⟩ := collectExcept_mem hps chunk hchunk
    obtain ⟨tail, hseqeq, hchain⟩ :=
      recurseFlights_sound ls.length ls mins maxs start [] 1 chunk hrf
        seq hseqchunk
    unfold mkFlightItinerary at hmk
    split at hmk
    · exact Except.noConfusion hmk
    · split at hmk
      · rename_i x hg
        cases hmk
        refine ⟨?_, ?_⟩
        · intro i hi
          obtain ⟨hgt, hmin, hmax⟩ :=
            chainFrom_index mins maxs seq 1 hchain i hi
          have hidx : 1 + i = i + 1 := by omega
          rw [hidx] at hmin hmax
          exact ⟨hgt, hmin, hmax⟩
        · intro i hi hret
          obtain ⟨p, hp1, hp2⟩ :=
            computeGroupIds_parents seq [] 1 x hg i hi hret
          rcases hp2 with ⟨g, hlk⟩ | hfound
          · simp [List.lookup] at hlk
          · exact ⟨p, hp1, hfound⟩
      · exact Except.noConfusion hmk

/-- C1 witness: a two-leg round trip (departing day 0, returning day 5,
parent-linked) instantiates the invariant theorem. -/
theorem generate_flight_itineraries_invariant_witness :
    generate_flight_itineraries [[fRTDep], [fRTRet]]
      [none, none] [none, none] = .ok [⟨[fRTDep, fRTRet]⟩] ∧
    (∀ it ∈ [(⟨[fRTDep, fRTRet]⟩ : FlightItinerary)],
      (∀ i, (hi : i + 1 < it.flight_infos.length) →
        it.flight_infos[i + 1].firstDeparture >
          it.flight_infos[i].lastArrival ∧
        (∀ m, ([none, none] : List (Option ℤ))[i + 1]? = some (some m) →
          it.flight_infos[i + 1].firstDeparture -
            it.flight_infos[i].lastArrival ≥ m) ∧
        (∀ M, ([none, none] : List (Option ℤ))[i + 1]? = some (some M) →
          it.flight_infos[i + 1].firstDeparture -
            it.flight_infos[i].lastArrival ≤ M)) ∧
      (∀ i, (hi : i < it.flight_infos.length) →
        it.flight_infos[i].flight_type = FlightType.ROUND_TRIP_RETURNING →
        ∃ p, it.flight_infos[i].parent_ids = [p] ∧
          ∃ j, ∃ _ : j < i,
            it.flight_infos[j].flight_type =
              FlightType.ROUND_TRIP_DEPARTING ∧
            it.flight_infos[j].id = p)) :=
  ⟨rfl,
   generate_flight_itineraries_invariant [[fRTDep], [fRTRet]]
     [none, none] [none, none] [⟨[fRTDep, fRTRet]⟩] (by decide) rfl⟩

/-! ## C10 theorems -/

lemma extractLoop_ok_paths :
    ∀ (cities : List City) q2q q2ch fp2q res,
      extractLoop cities q2q q2ch fp2q = .ok res →
      (legPaths cities).Nodup ∧
        ∀ p ∈ legPaths cities, fp2q.lookup p = none := by
  intro cities
  induction cities with
  | nil =>
    intro q2q q2ch fp2q res h
    refine ⟨by simp only [legPaths]; exact List.nodup_nil, ?_⟩
    intro p hp
    simp only [legPaths] at hp
    exact absurd hp (List.not_mem_nil p)
  | cons c1 t ih =>
    intro q2q q2ch fp2q res h
    cases t with
    | nil =>
      refine ⟨by simp only [legPaths]; exact List.nodup_nil, ?_⟩
      intro p hp
      simp only [legPaths] at hp
      exact absurd hp (List.not_mem_nil p)
    | cons c2 rest =>
      simp only [extractLoop] at h
      split at h
      · exact Except.noConfusion h
      · rename_i one_way hc
        split at h
        · exact Except.noConfusion h
        · rename_i q2ch1 hchecked
          split at h
          · exact Except.noConfusion h
          · rename_i hfp
            have hfin : ∀ (q2qx : List (QueryHashKey × FlightSearchFilters))
                (q2chx : List (QueryHashKey × (CityHashes × Option CityHashes))),
                extractLoop (c2 :: rest) q2qx q2chx
                  (((c1.id, c2.id), one_way) :: fp2q) = .ok res →
                (legPaths (c1 :: c2 :: rest)).Nodup ∧
                  ∀ p ∈ legPaths (c1 :: c2 :: rest), fp2q.lookup p = none := by
              intro q2qx q2chx hrec
              obtain ⟨hnodup, hdisj⟩ := ih q2qx q2chx _ res hrec
              constructor
              · simp only [legPaths]
                rw [List.nodup_cons]
                refine ⟨?_, hnodup⟩
                intro hmem
                have hl := hdisj _ hmem
                simp only [List.lookup, beq_self_eq_true] at hl
                exact Option.noConfusion hl
              · intro p hp
                simp only [legPaths, List.mem_cons] at hp
                rcases hp with rfl | hp
                · cases hl : fp2q.lookup (c1.id, c2.id) with
                  | none => rfl
                  | some q => rw [hl] at hfp; simp at hfp
                · have hl := hdisj p hp
                  cases hbe : p == ((c1.id, c2.id) : FlightPath) with
                  | true =>
                    have hpe : p = (c1.id, c2.id) := by
                      simpa using hbe
                    rw [hpe]
                    cases hl2 : fp2q.lookup ((c1.id, c2.id) : FlightPath) with
                    | none => rfl
                    | some q => rw [hl2] at hfp; simp at hfp
                  | false =>
                    simp only [List.lookup, hbe] at hl
                    exact hl
            split at h
            · exact hfin _ _ h
            · rename_i dq hdq
              split at h
              · exact Except.noConfusion h
              · rename_i rtq hmerge
                split at h
                · exact Except.noConfusion h
                · rename_i dch sbn hpr
                  by_cases hsb : sbn.isSome
                  · rw [if_pos hsb] at h
                    exact Except.noConfusion h
                  · rw [if_neg hsb] at h
                    exact hfin _ _ h

/-- C10 (confirmed): whenever the same directed (departure city id,
arrival city id) pair occurs as an adjacent leg more than once in a city
itinerary, `extract_queries` raises (an assertion failure at
flight_itinerary.py line 267, or an earlier exception on the way there)
instead of returning a correlation mapping, for any incoming
query-hash-to-query dict. -/
theorem extract_queries_duplicate_directed_leg_errors
    (cities : List City)
    (q2q0 : List (QueryHashKey × FlightSearchFilters))
    (hdup : ¬ (legPaths cities).Nodup) :
    ∃ e, extract_queries cities q2q0 = .error e := by
  cases hres : extract_queries cities q2q0 with
  | ok res =>
    exact absurd (extractLoop_ok_paths cities q2q0 [] [] res hres).1 hdup
  | error e => exact ⟨e, rfl⟩

/-- C10 witness: the template A, B, A, B flies the directed leg A-to-B
twice (legs 1 and 3), so the query extraction errors. -/
theorem extract_queries_duplicate_directed_leg_errors_witness :
    ¬ (legPaths [cityA0, cityB0, cityA1, cityB1]).Nodup ∧
    ∃ e, extract_queries [cityA0, cityB0, cityA1, cityB1] [] = .error e :=
  ⟨by decide,
   extract_queries_duplicate_directed_leg_errors
     [cityA0, cityB0, cityA1, cityB1] [] (by decide)⟩
